import Mathlib

/-!
# lightroom2aftershot: tone-curve codec and preset conversion

A shallow embedding of `lib/aftershot_curve.go` and `lib/conversion.go`.

* Go `int` values are integers; arithmetic that can leave the 64-bit range is
  wrapped explicitly (`wrapInt64`).
* A Go run-time panic (negative `make` length, index out of range) is the
  result `none`.
* Go strings are `String`; `strconv.Itoa` is the decimal rendering of an integer
  and `strings.Join` is `String.intercalate`.
-/

set_option exponentiation.threshold 8192
set_option maxRecDepth 4096

namespace Lightroom2Aftershot

/-! ## Constants -/

/-- Modelled from the spec: the constant `AFTERSHOT_CURVE_MAX` is declared outside the
files at hand; the spec gives the target value range as [0, 65535]. -/
def AFTERSHOT_CURVE_MAX : Int := 65535

/-- Modelled from the spec: the constant `LIGHTROOM_CURVE_MAX` is declared outside the
files at hand; the spec gives the source value range as [0, 255]. -/
def LIGHTROOM_CURVE_MAX : Int := 255

/-- Modelled from the spec: the constant `AFTERSHOT_NUM_POINTS` is declared outside the
files at hand; the spec gives the capacity of the target format as 20 slots per channel. -/
def AFTERSHOT_NUM_POINTS : Int := 20

/-! ## Go primitives used by the code -/

/-- Result of 64-bit signed arithmetic: the representative of `x` in [-2^63, 2^63). -/
def wrapInt64 (x : Int) : Int := Int.bmod x (2 ^ 64)

/-- The function `strconv.Itoa`: base-10 rendering, with a leading `-` for negatives. -/
def Itoa (i : Int) : String := toString i

/-- The function `strings.Join`. -/
def Join (elems : List String) (sep : String) : String := sep.intercalate elems

/-- Slice store `s[i] = v`; `none` is the index-out-of-range panic. -/
def setIndex (s : List String) (i : Nat) (v : String) : Option (List String) :=
  if i < s.length then some (s.set i v) else none

/-! ## `aftershot_curve.go` -/

structure AfterShotToneCurvePoint where
  In : Int
  Out : Int
deriving DecidableEq, Repr

structure AfterShotToneCurveChannel where
  Points : List AfterShotToneCurvePoint
deriving DecidableEq, Repr

/-- The loop `for index, value := range points { serialized[index] = strconv.Itoa(value) }`,
started at `index`. -/
def storePoints : List String → Nat → List Int → Option (List String)
  | serialized, _, [] => some serialized
  | serialized, index, value :: rest =>
    (setIndex serialized index (Itoa value)).bind fun s => storePoints s (index + 1) rest

/-- The method `serializePoints`. -/
def serializePoints (points : List Int) (maxNumberOfPoints : Int) : Option String :=
  if maxNumberOfPoints < 0 then none
  else do
    -- make([]string, maxNumberOfPoints), then every slot is set to "0"
    let serialized := (List.replicate maxNumberOfPoints.toNat "").map fun _ => "0"
    let serialized ←
      if points.length < 2 then do
        let s ← setIndex serialized 0 "0"
        setIndex s 1 (Itoa AFTERSHOT_CURVE_MAX)
      else
        storePoints serialized 0 points
    pure (Join serialized ",")

namespace AfterShotToneCurveChannel

def SerializeNumberOfPoints (self : AfterShotToneCurveChannel) : String :=
  if self.Points.length < 2 then "2" else Itoa self.Points.length

def SerializePointsIn (self : AfterShotToneCurveChannel) (maxNumberOfPoints : Int) :
    Option String :=
  serializePoints (self.Points.map fun point => point.In) maxNumberOfPoints

def SerializePointsOut (self : AfterShotToneCurveChannel) (maxNumberOfPoints : Int) :
    Option String :=
  serializePoints (self.Points.map fun point => point.Out) maxNumberOfPoints

end AfterShotToneCurveChannel

structure AfterShotCombinedToneCurve where
  Rgb : AfterShotToneCurveChannel
  Red : AfterShotToneCurveChannel
  Green : AfterShotToneCurveChannel
  Blue : AfterShotToneCurveChannel
deriving DecidableEq, Repr

namespace AfterShotCombinedToneCurve

/-- The call `fmt.Sprintf("4,1,%s,%s,%s,%s", ...)`. -/
def SerializeNumberOfPoints (self : AfterShotCombinedToneCurve) : String :=
  "4,1," ++ self.Rgb.SerializeNumberOfPoints ++ "," ++ self.Red.SerializeNumberOfPoints
    ++ "," ++ self.Green.SerializeNumberOfPoints ++ "," ++ self.Blue.SerializeNumberOfPoints

/-- The call `fmt.Sprintf("4,%d,%s,%s,%s,%s", ...)` over the four `SerializePointsIn`. -/
def SerializePointsIn (self : AfterShotCombinedToneCurve) (maxNumberOfPoints : Int) :
    Option String := do
  let rgb ← self.Rgb.SerializePointsIn maxNumberOfPoints
  let red ← self.Red.SerializePointsIn maxNumberOfPoints
  let green ← self.Green.SerializePointsIn maxNumberOfPoints
  let blue ← self.Blue.SerializePointsIn maxNumberOfPoints
  pure ("4," ++ Itoa maxNumberOfPoints ++ "," ++ rgb ++ "," ++ red ++ "," ++ green ++ "," ++ blue)

/-- The call `fmt.Sprintf("4,%d,%s,%s,%s,%s", ...)` over the four `SerializePointsOut`. -/
def SerializePointsOut (self : AfterShotCombinedToneCurve) (maxNumberOfPoints : Int) :
    Option String := do
  let rgb ← self.Rgb.SerializePointsOut maxNumberOfPoints
  let red ← self.Red.SerializePointsOut maxNumberOfPoints
  let green ← self.Green.SerializePointsOut maxNumberOfPoints
  let blue ← self.Blue.SerializePointsOut maxNumberOfPoints
  pure ("4," ++ Itoa maxNumberOfPoints ++ "," ++ rgb ++ "," ++ red ++ "," ++ green ++ "," ++ blue)

end AfterShotCombinedToneCurve

/-! ## Go's float64, as far as the conversion uses it

Every finite float64 is an integer multiple of 2^-1074, so a finite value is a sign and a
natural number `mag`, standing for `mag / 2^1074`. Rounding is to nearest, ties to even,
with 53 significant bits, as IEEE 754 and `strconv.ParseFloat` prescribe. -/

inductive Float64 where
  | finite (neg : Bool) (mag : Nat)
  | inf (neg : Bool)
  | nan
deriving DecidableEq, Repr

/-- The integer nearest to `a / b`, ties to even. -/
def roundHalfEven (a b : Nat) : Nat :=
  let q := a / b
  let r := a % b
  if 2 * r < b then q else if b < 2 * r then q + 1 else if q % 2 = 0 then q else q + 1

/-- Shifting `n` right until it is 0, by 64 binary digits at a time while it has more than
64 and by one after that, counting the digits dropped in `acc`. -/
def bitLengthAux : Nat → Nat → Nat → Nat
  | 0, _, acc => acc
  | fuel + 1, n, acc =>
    if n = 0 then acc
    else if 2 ^ 64 ≤ n then bitLengthAux fuel (n / 2 ^ 64) (acc + 64)
    else bitLengthAux fuel (n / 2) (acc + 1)

/-- Number of binary digits of `n`. -/
def bitLength (n : Nat) : Nat := bitLengthAux n n 0

/-- The float64 magnitude (in units of 2^-1074) nearest to `p / q`; `none` when the
rounded value is beyond the largest finite float64. -/
def roundToFloat64 (p q : Nat) : Option Nat :=
  let a := p * 2 ^ 1074
  let shift := bitLength (a / q) - 53
  let m := roundHalfEven a (q * 2 ^ shift) * 2 ^ shift
  if m < 2 ^ 2098 then some m else none

/-- A positive constant `p / q` of the source text, converted to float64. -/
def float64Const (p q : Nat) : Float64 :=
  match roundToFloat64 p q with
  | some m => .finite false m
  | none => .inf false

namespace Float64

/-- The function `math.Abs`. -/
def abs : Float64 → Float64
  | finite _ m => finite false m
  | inf _ => inf false
  | nan => nan

/-- The float64 product `x * y`. -/
def mul : Float64 → Float64 → Float64
  | nan, _ => nan
  | _, nan => nan
  | inf a, inf b => inf (xor a b)
  | inf a, finite b n => if n = 0 then nan else inf (xor a b)
  | finite a m, inf b => if m = 0 then nan else inf (xor a b)
  | finite a m, finite b n =>
    match roundToFloat64 (m * n) (2 ^ 2148) with
    | some r => finite (xor a b) r
    | none => inf (xor a b)

/-- The verb `%f` of `fmt.Sprintf`: six fractional digits, the exact value rounded half to
even. -/
def formatF : Float64 → String
  | nan => "NaN"
  | inf false => "+Inf"
  | inf true => "-Inf"
  | finite neg m =>
    let d := roundHalfEven (m * 10 ^ 6) (2 ^ 1074)
    let frac := toString (d % 10 ^ 6)
    (if neg then "-" else "") ++ toString (d / 10 ^ 6) ++ "."
      ++ String.mk (List.replicate (6 - frac.length) '0') ++ frac

end Float64

inductive ParseError where
  | ErrSyntax
  | ErrRange
deriving DecidableEq, Repr

/-- What `strconv.ParseFloat` can report: a value, a syntax error, or a range error with the
sign of the overflowing literal. -/
inductive ParseOutcome where
  | ok (f : Float64)
  | syntaxError
  | rangeError (neg : Bool)
deriving DecidableEq, Repr

/-- Behaviour of the Go library and platform that the model leaves open. -/
structure GoRuntime where
  /-- Result of `strconv.ParseFloat(s, 64)` on the literal forms that are not modelled in
  detail: exponents, hexadecimal floats, digit separators, infinities and NaN. -/
  parseFloatOther : String → ParseOutcome
  /-- Result of the conversion `int(f)` when `f` is not in the range of `int`; the language
  leaves it to the platform. -/
  floatToIntOther : Float64 → Int

/-- Value of a string of decimal digits. -/
def digitsValue (cs : List Char) : Nat :=
  cs.foldl (fun a c => 10 * a + (c.toNat - 48)) 0

/-- The optional sign of a literal (`true` for `-`) and what follows it. -/
def splitSign : List Char → Bool × List Char
  | '+' :: r => (false, r)
  | '-' :: r => (true, r)
  | cs => (false, cs)

/-- A plain decimal literal: optional sign, digits, optionally a point and more digits, with
at least one digit. The result is the sign, the integer digits and the fraction digits. -/
def parsePlainDecimal (s : String) : Option (Bool × List Char × List Char) :=
  let signed := splitSign s.data
  let intDigits := signed.2.takeWhile Char.isDigit
  match signed.2.dropWhile Char.isDigit with
  | [] => if intDigits = [] then none else some (signed.1, intDigits, [])
  | '.' :: frac =>
    if frac.all Char.isDigit ∧ ¬ (intDigits = [] ∧ frac = []) then
      some (signed.1, intDigits, frac)
    else none
  | _ => none

/-- The characters that occur in some string `strconv.ParseFloat` accepts: digits, sign,
point, digit separator, hexadecimal digits and markers, and the letters of `infinity` and
`nan` in either case. -/
def isFloatChar (c : Char) : Bool :=
  c.isDigit || "+-._abcdefABCDEFxXpPiInNtTyY".data.contains c

/-- The call `strconv.ParseFloat(s, 64)`: the value and the error. A plain decimal literal
yields the nearest float64 (an infinity and `ErrRange` beyond the finite range); a string
with a character no float literal contains yields 0 and `ErrSyntax`; the other strings are
left to the runtime. -/
def ParseFloat (rt : GoRuntime) (s : String) : Float64 × Option ParseError :=
  match parsePlainDecimal s with
  | some (neg, intDigits, frac) =>
    match roundToFloat64 (digitsValue (intDigits ++ frac)) (10 ^ frac.length) with
    | some m => (.finite neg m, none)
    | none => (.inf neg, some .ErrRange)
  | none =>
    if s.data.all isFloatChar then
      match rt.parseFloatOther s with
      | .ok f => (f, none)
      | .syntaxError => (.finite false 0, some .ErrSyntax)
      | .rangeError neg => (.inf neg, some .ErrRange)
    else (.finite false 0, some .ErrSyntax)

/-- The conversion `int(f)`: truncation toward zero. -/
def floatToInt (rt : GoRuntime) : Float64 → Int
  | .finite false m =>
    if m / 2 ^ 1074 < 2 ^ 63 then (m / 2 ^ 1074 : Nat)
    else wrapInt64 (rt.floatToIntOther (.finite false m))
  | .finite true m =>
    if m / 2 ^ 1074 ≤ 2 ^ 63 then -((m / 2 ^ 1074 : Nat) : Int)
    else wrapInt64 (rt.floatToIntOther (.finite true m))
  | f => wrapInt64 (rt.floatToIntOther f)

/-- A runtime for evaluating examples: it rejects every literal outside the plain decimal
form and converts out-of-range floats to the least `int`. -/
def exampleRuntime : GoRuntime where
  parseFloatOther := fun _ => .syntaxError
  floatToIntOther := fun _ => -(2 ^ 63)

/-! ## `lightroom.go`: the source preset -/

structure LightroomToneCurvePoint where
  In : Int
  Out : Int
deriving DecidableEq, Repr

structure LightroomToneCurve where
  Points : List LightroomToneCurvePoint
deriving DecidableEq, Repr

structure LightroomCombinedToneCurve where
  Rgb : LightroomToneCurve
  Red : LightroomToneCurve
  Green : LightroomToneCurve
  Blue : LightroomToneCurve
deriving DecidableEq, Repr

/-- The source preset. `Attributes` is the Go map given by its entries, in the order in
which `range` visits them; a Go map holds every key once. -/
structure LightroomPreset where
  Attributes : List (String × String)
  ToneCurve : LightroomCombinedToneCurve
deriving DecidableEq, Repr

/-- The read `lightroom.Attributes[key]`: the empty string for a missing key. -/
def LightroomPreset.attr (lightroom : LightroomPreset) (key : String) : String :=
  (lightroom.Attributes.lookup key).getD ""

/-! ## `aftershot.go`: the target preset -/

/-- A Go `map[string]string`, as the partial function it denotes. -/
abbrev AttributeMap := String → Option String

/-- The store `m[key] = value`. -/
def setAttr (m : AttributeMap) (key value : String) : AttributeMap :=
  fun k => if k = key then some value else m k

/-- A map literal. -/
def mapLiteral (entries : List (String × String)) : AttributeMap :=
  entries.foldl (fun m e => setAttr m e.1 e.2) (fun _ => none)

structure AfterShotPreset where
  ToneCurve : AfterShotCombinedToneCurve
  Attributes : AttributeMap

/-! ## `conversion.go` -/

/-- The lines written with `log.Printf`, by call site. -/
inductive LogEntry where
  /-- Line `[WARN] Could not convert %s to a float: %s` -/
  | couldNotConvert (value : String) (err : ParseError)
  /-- Line `[WARN] Cannot lightroom configuration '%s' with value '%s' to aftershot` -/
  | cannotMap (lightroomName value : String)
  /-- Line `[INFO] Texture is translated to usage of the wavelet sharpen plugin. ...` -/
  | textureInfo
  /-- Line `[WARN] This preset seems to use split toning. ...` -/
  | splitToning
  /-- Line `[WARN] This preset seems to use grain. ...` -/
  | grain
  /-- Line `[WARN] This preset seems to use color noise reduction. ...` -/
  | colorNoiseReduction
  /-- Line `[WARN] This preset seems to use parametric splits. ...` -/
  | parametricSplits
  /-- Line `[INFO] Lightroom has 7 Adjustable colors, aftershot has 6. ...` -/
  | purpleInfo
  /-- Line written by `log.Print` -/
  | print (line : String)
deriving DecidableEq, Repr

/-- The closures of type `AttributeMapper`, named after the functions that build them; the
body of each closure is in `AttributeMapper.run`. -/
inductive AttributeMapper where
  | copyValueDirectly (destination : String)
  | absInt (destination : String)
  | applyMultiplier (destination : String) (multiplier : Float64)
  | todo
  | ignore
deriving DecidableEq, Repr

/-- The warning after `strconv.ParseFloat`, written when `err != nil`. -/
def parseWarning (value : String) : Option ParseError → List LogEntry
  | some err => [.couldNotConvert value err]
  | none => []

/-- Calling a mapper: the returned preset and the lines logged. -/
def AttributeMapper.run (rt : GoRuntime) :
    AttributeMapper → AfterShotPreset → String → String → AfterShotPreset × List LogEntry
  | .copyValueDirectly destination, preset, _, value =>
    ({ preset with Attributes := setAttr preset.Attributes destination value }, [])
  | .absInt destination, preset, _, value =>
    let parsed := ParseFloat rt value
    ({ preset with
        Attributes := setAttr preset.Attributes destination
          (Itoa (floatToInt rt parsed.1.abs)) },
      parseWarning value parsed.2)
  | .applyMultiplier destination multiplier, preset, _, value =>
    let parsed := ParseFloat rt value
    ({ preset with
        Attributes := setAttr preset.Attributes destination
          (parsed.1.mul multiplier).formatF },
      parseWarning value parsed.2)
  | .todo, preset, lightroomName, value =>
    (preset, if value ≠ "" ∧ value ≠ "0" then [.cannotMap lightroomName value] else [])
  | .ignore, preset, _, _ => (preset, [])

/-- The destination field a mapper was built with, if it has one. -/
def AttributeMapper.destination? : AttributeMapper → Option String
  | .copyValueDirectly destination => some destination
  | .absInt destination => some destination
  | .applyMultiplier destination _ => some destination
  | .todo => none
  | .ignore => none

def emptyAttributeSet : AttributeMap :=
  mapLiteral [
    ("bopt:scont", "0"),
    ("bopt:highlightrecval", "0"),
    ("bopt:fillamount", "0"),
    ("bopt:Equalizer_kb.kbs_redhue", "0"),
    ("bopt:Equalizer_kb.kbs_orangehue", "0"),
    ("bopt:Equalizer_kb.kbs_yellowhue", "0"),
    ("bopt:Equalizer_kb.kbs_greenhue", "0"),
    ("bopt:Equalizer_kb.kbs_cyanhue", "0"),
    ("bopt:Equalizer_kb.kbs_bluehue", "0"),
    ("bopt:Equalizer_kb.kbs_magentahue", "0"),
    ("bopt:Equalizer_kb.kbs_redsat", "0"),
    ("bopt:Equalizer_kb.kbs_orangesat", "0"),
    ("bopt:Equalizer_kb.kbs_yellowsat", "0"),
    ("bopt:Equalizer_kb.kbs_greensat", "0"),
    ("bopt:Equalizer_kb.kbs_cyansat", "0"),
    ("bopt:Equalizer_kb.kbs_bluesat", "0"),
    ("bopt:Equalizer_kb.kbs_magentasat", "0"),
    ("bopt:Equalizer_kb.kbs_redlum", "0"),
    ("bopt:Equalizer_kb.kbs_orangelum", "0"),
    ("bopt:Equalizer_kb.kbs_yellowlum", "0"),
    ("bopt:Equalizer_kb.kbs_greenlum", "0"),
    ("bopt:Equalizer_kb.kbs_cyanlum", "0"),
    ("bopt:Equalizer_kb.kbs_bluelum", "0"),
    ("bopt:Equalizer_kb.kbs_magentalum", "0"),
    ("bopt:Equalizer_kb.kbs_enabled", "true")]

/-- The table `attributeMappers`, by its entries; `0.01`, `0.7` and `2` are the float64
constants nearest to 1/100, 7/10 and 2. -/
def attributeMappers : List (String × AttributeMapper) := [
  ("Contrast2012", AttributeMapper.copyValueDirectly "bopt:scont"),
  ("Highlights2012", AttributeMapper.absInt "bopt:highlightrecval"),
  ("Shadows2012", AttributeMapper.applyMultiplier "bopt:fillamount" (float64Const 1 100)),
  ("Whites2012", AttributeMapper.todo),
  ("Blacks2012", AttributeMapper.todo),
  ("Clarity2021", AttributeMapper.todo),
  ("Vibrance", AttributeMapper.copyValueDirectly "bopt:vibe"),
  ("Saturation", AttributeMapper.copyValueDirectly "bopt:sat"),
  ("HueAdjustmentRed", AttributeMapper.applyMultiplier "bopt:Equalizer_kb.kbs_redhue" (float64Const 7 10)),
  ("HueAdjustmentOrange", AttributeMapper.applyMultiplier "bopt:Equalizer_kb.kbs_orangehue" (float64Const 7 10)),
  ("HueAdjustmentYellow", AttributeMapper.applyMultiplier "bopt:Equalizer_kb.kbs_yellowhue" (float64Const 7 10)),
  ("HueAdjustmentGreen", AttributeMapper.applyMultiplier "bopt:Equalizer_kb.kbs_greenhue" (float64Const 7 10)),
  ("HueAdjustmentAqua", AttributeMapper.applyMultiplier "bopt:Equalizer_kb.kbs_cyanhue" (float64Const 7 10)),
  ("HueAdjustmentBlue", AttributeMapper.applyMultiplier "bopt:Equalizer_kb.kbs_bluehue" (float64Const 7 10)),
  ("HueAdjustmentMagenta",
    AttributeMapper.applyMultiplier "bopt:Equalizer_kb.kbs_magentahue" (float64Const 7 10)),
  ("SaturationAdjustmentRed", AttributeMapper.copyValueDirectly "bopt:Equalizer_kb.kbs_redsat"),
  ("SaturationAdjustmentOrange", AttributeMapper.copyValueDirectly "bopt:Equalizer_kb.kbs_orangesat"),
  ("SaturationAdjustmentYellow", AttributeMapper.copyValueDirectly "bopt:Equalizer_kb.kbs_yellowsat"),
  ("SaturationAdjustmentGreen", AttributeMapper.copyValueDirectly "bopt:Equalizer_kb.kbs_greensat"),
  ("SaturationAdjustmentAqua", AttributeMapper.copyValueDirectly "bopt:Equalizer_kb.kbs_cyansat"),
  ("SaturationAdjustmentBlue", AttributeMapper.copyValueDirectly "bopt:Equalizer_kb.kbs_bluesat"),
  ("SaturationAdjustmentMagenta", AttributeMapper.copyValueDirectly "bopt:Equalizer_kb.kbs_magentasat"),
  ("LuminanceAdjustmentRed", AttributeMapper.copyValueDirectly "bopt:Equalizer_kb.kbs_redlum"),
  ("LuminanceAdjustmentOrange", AttributeMapper.copyValueDirectly "bopt:Equalizer_kb.kbs_orangelum"),
  ("LuminanceAdjustmentYellow", AttributeMapper.copyValueDirectly "bopt:Equalizer_kb.kbs_yellowlum"),
  ("LuminanceAdjustmentGreen", AttributeMapper.copyValueDirectly "bopt:Equalizer_kb.kbs_greenlum"),
  ("LuminanceAdjustmentAqua", AttributeMapper.copyValueDirectly "bopt:Equalizer_kb.kbs_cyanlum"),
  ("LuminanceAdjustmentBlue", AttributeMapper.copyValueDirectly "bopt:Equalizer_kb.kbs_bluelum"),
  ("LuminanceAdjustmentMagenta", AttributeMapper.copyValueDirectly "bopt:Equalizer_kb.kbs_magentalum"),
  ("Sharpness", AttributeMapper.applyMultiplier "bopt:newsharpen" (float64Const 2 1)),
  ("SharpenRadius", AttributeMapper.ignore),
  ("SharpenDetail", AttributeMapper.ignore),
  ("Version", AttributeMapper.ignore),
  ("UUID", AttributeMapper.ignore),
  ("PresetType", AttributeMapper.ignore),
  ("crs", AttributeMapper.ignore),
  ("ProcessVersion", AttributeMapper.ignore),
  ("SupportsColor", AttributeMapper.ignore),
  ("SupportsOutputReferred", AttributeMapper.ignore),
  ("SupportsNormalDynamicRange", AttributeMapper.ignore),
  ("SupportsAmount", AttributeMapper.ignore),
  ("SupportsHighDynamicRange", AttributeMapper.ignore),
  ("SupportsMonochrome", AttributeMapper.ignore),
  ("SupportsSceneReferred", AttributeMapper.ignore),
  ("OverrideLookVignette", AttributeMapper.ignore),
  ("HasSettings", AttributeMapper.ignore),
  ("ToneCurveName2012", AttributeMapper.ignore),
  ("CameraProfile", AttributeMapper.ignore),
  ("ConvertToGrayscale", AttributeMapper.ignore),
  ("Texture", AttributeMapper.ignore),
  ("SplitToningBalance", AttributeMapper.ignore),
  ("SplitToningShadowSaturation", AttributeMapper.ignore),
  ("SplitToningShadowHue", AttributeMapper.ignore),
  ("GrainAmount", AttributeMapper.ignore),
  ("GrainFrequency", AttributeMapper.ignore),
  ("GrainSize", AttributeMapper.ignore),
  ("ColorNoiseReduction", AttributeMapper.ignore),
  ("ColorNoiseReductionSmoothness", AttributeMapper.ignore),
  ("ColorNoiseReductionDetail", AttributeMapper.ignore),
  ("Dehaze", AttributeMapper.ignore),
  ("ParametricShadows", AttributeMapper.ignore),
  ("ParametricDarks", AttributeMapper.ignore),
  ("ParametricLights", AttributeMapper.ignore),
  ("ParametricHighlights", AttributeMapper.ignore),
  ("ParametricShadowSplit", AttributeMapper.ignore),
  ("ParametricMidtoneSplit", AttributeMapper.ignore),
  ("ParametricHighlightSplit", AttributeMapper.ignore),
  ("HueAdjustmentPurple", AttributeMapper.ignore),
  ("SaturationAdjustmentPurple", AttributeMapper.ignore),
  ("LuminanceAdjustmentPurple", AttributeMapper.ignore),
  ("ColorGradeMidtoneHue", AttributeMapper.ignore),
  ("ColorGradeBlending", AttributeMapper.ignore),
  ("ColorGradeMidtoneSat", AttributeMapper.ignore)]

/-- First pass: `ConvertToGrayscale` is saturation 0. -/
def grayscalePass (lightroom : LightroomPreset) (preset : AfterShotPreset) :
    AfterShotPreset × List LogEntry :=
  if lightroom.attr "ConvertToGrayscale" = "True" then
    ({ preset with Attributes := setAttr preset.Attributes "bopt:sat" "0" }, [])
  else (preset, [])

/-- Second pass: texture to wavelet sharpen. -/
def texturePass (lightroom : LightroomPreset) (preset : AfterShotPreset) :
    AfterShotPreset × List LogEntry :=
  if lightroom.attr "Texture" ≠ "0" then
    let a := setAttr preset.Attributes "bopt:WaveletSharpen2.bSphWaveletUsmon" "true"
    let a := setAttr a "bopt:WaveletSharpen2.bSphWaveletUsmClarity" "true"
    let a := setAttr a "bopt:WaveletSharpen2.bSphWaveletUsmRadius" "10"
    let a := setAttr a "bopt:WaveletSharpen2.bSphWaveletUsmAmount" (lightroom.attr "Texture")
    ({ preset with Attributes := a }, [.textureInfo])
  else (preset, [])

/-- Third pass: dehaze to local contrast. -/
def dehazePass (lightroom : LightroomPreset) (preset : AfterShotPreset) :
    AfterShotPreset × List LogEntry :=
  if lightroom.attr "Dehaze" ≠ "0" then
    let a := setAttr preset.Attributes "bopt:lc_enabled" "true"
    let a := setAttr a "bopt:lc_strength" (lightroom.attr "Dehaze")
    ({ preset with Attributes := a }, [])
  else (preset, [])

/-- Fourth pass: features Aftershot does not support are reported. -/
def unsupportedPass (lightroom : LightroomPreset) (preset : AfterShotPreset) :
    AfterShotPreset × List LogEntry :=
  (preset,
    (if lightroom.attr "SplitToningBalance" ≠ "+50"
        ∨ lightroom.attr "SplitToningShadowSaturation" = "0" then [.splitToning] else [])
    ++ (if lightroom.attr "GrainAmount" ≠ "+50" then [.grain] else [])
    ++ (if lightroom.attr "ColorNoiseReduction" ≠ "25" then [.colorNoiseReduction] else [])
    ++ (if lightroom.attr "ParametricShadowSplit" ≠ "25"
        ∨ lightroom.attr "ParametricMidtoneSplit" ≠ "50"
        ∨ lightroom.attr "ParametricHighlightSplit" ≠ "75" then [.parametricSplits] else [])
    ++ [.purpleInfo])

def postMappingPasses :
    List (LightroomPreset → AfterShotPreset → AfterShotPreset × List LogEntry) :=
  [grayscalePass, texturePass, dehazePass, unsupportedPass]

/-- One round of the loop over `lightroom.Attributes`, on the preset and the log so far. -/
def mapStep (rt : GoRuntime) (state : AfterShotPreset × List LogEntry)
    (entry : String × String) : AfterShotPreset × List LogEntry :=
  if entry.2 = "" then state
  else
    let mapper := (attributeMappers.lookup entry.1).getD .todo
    let result := mapper.run rt state.1 entry.1 entry.2
    (result.1, state.2 ++ result.2)

/-- One round of the loop over `postMappingPasses`. -/
def passStep (lightroom : LightroomPreset) (state : AfterShotPreset × List LogEntry)
    (pass : LightroomPreset → AfterShotPreset → AfterShotPreset × List LogEntry) :
    AfterShotPreset × List LogEntry :=
  let result := pass lightroom state.1
  (result.1, state.2 ++ result.2)

def newAfterShotToneCurvePointFromLightroomToneCurvePoint
    (lightroom : LightroomToneCurvePoint) : AfterShotToneCurvePoint :=
  let multiplier := AFTERSHOT_CURVE_MAX / LIGHTROOM_CURVE_MAX
  { In := wrapInt64 (lightroom.In * multiplier)
    Out := wrapInt64 (lightroom.Out * multiplier) }

def newAfterShotToneCurveChannelFromLightRoomToneCurveChannel
    (lightroom : LightroomToneCurve) : AfterShotToneCurveChannel :=
  { Points := lightroom.Points.map newAfterShotToneCurvePointFromLightroomToneCurvePoint }

def newAfterShotCombinedToneCurveFromLightRoomToneCurve
    (lightroom : LightroomCombinedToneCurve) : AfterShotCombinedToneCurve :=
  { Rgb := newAfterShotToneCurveChannelFromLightRoomToneCurveChannel lightroom.Rgb
    Red := newAfterShotToneCurveChannelFromLightRoomToneCurveChannel lightroom.Red
    Green := newAfterShotToneCurveChannelFromLightRoomToneCurveChannel lightroom.Green
    Blue := newAfterShotToneCurveChannelFromLightRoomToneCurveChannel lightroom.Blue }

/-- The function `NewAftershotPresetFromLightroom`: the preset returned and the lines
logged. -/
def NewAftershotPresetFromLightroom (rt : GoRuntime) (lightroom : LightroomPreset) :
    AfterShotPreset × List LogEntry :=
  let preset : AfterShotPreset :=
    { Attributes := emptyAttributeSet
      ToneCurve := newAfterShotCombinedToneCurveFromLightRoomToneCurve lightroom.ToneCurve }
  let preset : AfterShotPreset :=
    { preset with
      Attributes := mapLiteral [("bopt:Equalizer_kb.kbs_enabled", "true"),
        ("bopt:curveson", "true")] }
  let mapped := lightroom.Attributes.foldl (mapStep rt) (preset, [])
  postMappingPasses.foldl (passStep lightroom) mapped

/-! ## `aftershot_curve.go` and `aftershot.go`: the XML attributes -/

/-- The type `xml.Attr`, by the local name and the value. -/
structure XmlAttr where
  Local : String
  Value : String
deriving DecidableEq, Repr

/-- The method `ToXmlAttributes`: the slice returned (`none` when a serializer panics) and
the line logged. -/
def AfterShotCombinedToneCurve.ToXmlAttributes (self : AfterShotCombinedToneCurve) :
    Option (List XmlAttr) × List LogEntry :=
  let maxList := "4,1," ++ Itoa AFTERSHOT_CURVE_MAX ++ "," ++ Itoa AFTERSHOT_CURVE_MAX ++ ","
    ++ Itoa AFTERSHOT_CURVE_MAX ++ "," ++ Itoa AFTERSHOT_CURVE_MAX
  (do
    let cn := self.SerializeNumberOfPoints
    let cx ← self.SerializePointsIn AFTERSHOT_NUM_POINTS
    let cy ← self.SerializePointsOut AFTERSHOT_NUM_POINTS
    pure [
      ⟨"bopt:curves_m_cn", cn⟩,
      ⟨"bopt:curves_m_cx", cx⟩,
      ⟨"bopt:curves_m_cy", cy⟩,
      ⟨"bopt:curves_m_olo", "4,1,0,0,0,0"⟩,
      ⟨"bopt:curves_m_ohi", maxList⟩,
      ⟨"bopt:curves_m_ilo", "4,1,0,0,0,0"⟩,
      ⟨"bopt:curves_m_imid", "4,1,1,1,1,1"⟩,
      ⟨"bopt:curves_m_ihi", maxList⟩],
    [LogEntry.print maxList])

/-- The coordinates of a source curve whose products with 257 are in the range of `int`;
the coordinates 0 to 255 of the source format are. -/
def LightroomToneCurve.scalable (curve : LightroomToneCurve) : Prop :=
  ∀ p ∈ curve.Points,
    (-(2 ^ 63) ≤ 257 * p.In ∧ 257 * p.In < 2 ^ 63) ∧
    (-(2 ^ 63) ≤ 257 * p.Out ∧ 257 * p.Out < 2 ^ 63)

/-- The target fields the post-mapping passes store to. -/
def passDestinations : List String :=
  ["bopt:sat", "bopt:WaveletSharpen2.bSphWaveletUsmon",
    "bopt:WaveletSharpen2.bSphWaveletUsmClarity", "bopt:WaveletSharpen2.bSphWaveletUsmRadius",
    "bopt:WaveletSharpen2.bSphWaveletUsmAmount", "bopt:lc_enabled", "bopt:lc_strength"]

/-- The preset as the loop over the source attributes finds it: the two always-on fields and
no curve points. -/
def seededPreset : AfterShotPreset :=
  { ToneCurve := ⟨⟨[]⟩, ⟨[]⟩, ⟨[]⟩, ⟨[]⟩⟩
    Attributes := mapLiteral [("bopt:Equalizer_kb.kbs_enabled", "true"),
      ("bopt:curveson", "true")] }

/-- A source preset with the single attribute `Highlights2012`. -/
def highlightsPreset (value : String) : LightroomPreset :=
  ⟨[("Highlights2012", value)], ⟨⟨[]⟩, ⟨[]⟩, ⟨[]⟩, ⟨[]⟩⟩⟩

/-- The source keys the post-mapping passes read. -/
def passSources : List String :=
  ["ConvertToGrayscale", "Texture", "Dehaze", "SplitToningBalance",
    "SplitToningShadowSaturation", "GrainAmount", "ColorNoiseReduction",
    "ParametricShadowSplit", "ParametricMidtoneSplit", "ParametricHighlightSplit"]

/-- A source preset with the given attributes and no curve points. -/
def attributesPreset (attributes : List (String × String)) : LightroomPreset :=
  ⟨attributes, ⟨⟨[]⟩, ⟨[]⟩, ⟨[]⟩, ⟨[]⟩⟩⟩

/-- The names a target attribute can have: the two always-on fields, the destination fields
of the table, and the six fields only the texture and dehaze passes store to. -/
def targetNames : List String :=
  ["bopt:Equalizer_kb.kbs_enabled", "bopt:curveson"]
    ++ (attributeMappers.filterMap fun e => e.2.destination?)
    ++ ["bopt:WaveletSharpen2.bSphWaveletUsmon", "bopt:WaveletSharpen2.bSphWaveletUsmClarity",
      "bopt:WaveletSharpen2.bSphWaveletUsmRadius", "bopt:WaveletSharpen2.bSphWaveletUsmAmount",
      "bopt:lc_enabled", "bopt:lc_strength"]

/-- A source preset holding the neutral values of all fields the last pass looks at. -/
def neutralPreset : LightroomPreset :=
  attributesPreset [("SplitToningBalance", "+50"), ("SplitToningShadowSaturation", "0"),
    ("GrainAmount", "+50"), ("ColorNoiseReduction", "25"), ("ParametricShadowSplit", "25"),
    ("ParametricMidtoneSplit", "50"), ("ParametricHighlightSplit", "75")]

/-- The source preset `neutralPreset` with a shadow saturation of 5 for split toning. -/
def splitTonedPreset : LightroomPreset :=
  attributesPreset [("SplitToningBalance", "+50"), ("SplitToningShadowSaturation", "5"),
    ("GrainAmount", "+50"), ("ColorNoiseReduction", "25"), ("ParametricShadowSplit", "25"),
    ("ParametricMidtoneSplit", "50"), ("ParametricHighlightSplit", "75")]

/-- The tone curve without any point. -/
def noCurve : LightroomCombinedToneCurve := ⟨⟨[]⟩, ⟨[]⟩, ⟨[]⟩, ⟨[]⟩⟩

/-- A source preset whose Rgb curve is the single point (2^62, 0). -/
def overflowPreset : LightroomPreset :=
  ⟨[], ⟨⟨[⟨2 ^ 62, 0⟩]⟩, ⟨[]⟩, ⟨[]⟩, ⟨[]⟩⟩⟩

/-- A source preset whose Rgb curve is (0,18), (39,28), (255,240). -/
def curvePreset : LightroomPreset :=
  ⟨[], ⟨⟨[⟨0, 18⟩, ⟨39, 28⟩, ⟨255, 240⟩]⟩, ⟨[]⟩, ⟨[]⟩, ⟨[]⟩⟩⟩

/-- A source preset without attributes and without curve points. -/
def emptyLightroomPreset : LightroomPreset := ⟨[], noCurve⟩

/-- Spec-side description of one channel's slot list (spec §4.1), against which
`serializePoints` is compared: with fewer than two values the default curve `0, 65535`, else
the values in order, in both cases padded with `"0"` up to the capacity. -/
def specSlots (values : List Int) (capacity : Nat) : List String :=
  if values.length < 2 then "0" :: "65535" :: List.replicate (capacity - 2) "0"
  else values.map Itoa ++ List.replicate (capacity - values.length) "0"

/-- A channel with the three points (0,4626), (10023,7196), (65535,61680). -/
def channel3 : AfterShotToneCurveChannel :=
  ⟨[⟨0, 4626⟩, ⟨10023, 7196⟩, ⟨65535, 61680⟩]⟩

/-- A channel with the single point (5,7). -/
def channel1 : AfterShotToneCurveChannel := ⟨[⟨5, 7⟩]⟩

/-- A channel with 21 points, one more than the capacity of the target format. -/
def channel21 : AfterShotToneCurveChannel := ⟨List.replicate 21 ⟨0, 0⟩⟩

/-- A combined curve: three points on Rgb, one on Red, none on Green and Blue. -/
def combined3 : AfterShotCombinedToneCurve := ⟨channel3, channel1, ⟨[]⟩, ⟨[]⟩⟩

example : serializePoints [0, 10023, 65535] 5 = some "0,10023,65535,0,0" := by decide
example : serializePoints [7] 4 = some "0,65535,0,0" := by decide
example : serializePoints [1, 2, 3] 2 = none := by decide
example : serializePoints [] 1 = none := by decide
example : (AfterShotToneCurveChannel.mk []).SerializeNumberOfPoints = "2" := by decide
example : ParseFloat exampleRuntime "-40" = (.finite true (40 * 2 ^ 1074), none) := rfl
example : ParseFloat exampleRuntime "high" = (.finite false 0, some .ErrSyntax) := rfl
example : ParseFloat exampleRuntime "9007199254740993"
    = (.finite false (9007199254740992 * 2 ^ 1074), none) := rfl
example : ParseFloat exampleRuntime "0.5" = (.finite false (2 ^ 1073), none) := rfl
example : ParseFloat exampleRuntime "." = (.finite false 0, some .ErrSyntax) := rfl
example : ParseFloat exampleRuntime "5." = (.finite false (5 * 2 ^ 1074), none) := rfl
example : ParseFloat exampleRuntime "+.5" = (.finite false (2 ^ 1073), none) := rfl
example : ParseFloat exampleRuntime "1.2.3" = (.finite false 0, some .ErrSyntax) := rfl
example : ((ParseFloat exampleRuntime "50").1.mul (float64Const 1 100)).formatF = "0.500000" :=
  rfl
example : ((ParseFloat exampleRuntime "-0").1.mul (float64Const 1 100)).formatF = "-0.000000" :=
  rfl
example : ((ParseFloat exampleRuntime "33").1.mul (float64Const 7 10)).formatF = "23.100000" :=
  rfl
example : (float64Const 1 100).formatF = "0.010000" := rfl
example : float64Const 1 10 = .finite false (3602879701896397 * 2 ^ (1074 - 55)) := rfl
example : float64Const 1 3 = .finite false (6004799503160661 * 2 ^ (1074 - 54)) := rfl
example : roundToFloat64 (2 ^ 1024) 1 = none := rfl
example : roundToFloat64 (2 ^ 1024 - 2 ^ 970) 1 = none := rfl
example : roundToFloat64 (2 ^ 1024 - 2 ^ 970 - 1) 1 = some ((2 ^ 53 - 1) * 2 ^ 2045) := rfl
example : roundToFloat64 1 (2 ^ 1075) = some 0 := rfl
example : roundToFloat64 3 (2 ^ 1075) = some 2 := rfl
example : (NewAftershotPresetFromLightroom exampleRuntime emptyLightroomPreset).1.Attributes
    "bopt:scont" = none := by decide
example : (NewAftershotPresetFromLightroom exampleRuntime
    ⟨[("Highlights2012", "-40"), ("Contrast2012", "25"), ("Shadows2012", "50")], noCurve⟩).1.Attributes
    "bopt:highlightrecval" = some "40" := by decide
example : (NewAftershotPresetFromLightroom exampleRuntime
    ⟨[("Highlights2012", "-40"), ("Contrast2012", "25"), ("Shadows2012", "50")], noCurve⟩).1.Attributes
    "bopt:fillamount" = some "0.500000" := by decide
example : (NewAftershotPresetFromLightroom exampleRuntime
    ⟨[("Highlights2012", "high")], noCurve⟩).1.Attributes
    "bopt:highlightrecval" = some "0" := by decide
example : (NewAftershotPresetFromLightroom exampleRuntime
    ⟨[("Highlights2012", "high")], noCurve⟩).2
    = [.couldNotConvert "high" .ErrSyntax, .textureInfo, .splitToning, .grain,
        .colorNoiseReduction, .parametricSplits, .purpleInfo] := by decide

/-! ## Strings: joining and splitting at commas -/

theorem intercalate_go_data (sep : String) (l : List String) (acc : String) :
    (String.intercalate.go acc sep l).data
      = acc.data ++ (l.map fun a => sep.data ++ a.data).flatten := by
  induction l generalizing acc with
  | nil => simp [String.intercalate.go]
  | cons a as ih => simp [String.intercalate.go, ih, String.data_append]

theorem flatten_map_sep (sep : List Char) (a : List Char) (l : List (List Char)) :
    a ++ (l.map fun b => sep ++ b).flatten = sep.intercalate (a :: l) := by
  induction l generalizing a with
  | nil => simp [List.intercalate]
  | cons b bs ih =>
    have h := ih b
    simp only [List.intercalate, List.intersperse, List.flatten, List.map] at h ⊢
    rw [← h, List.append_assoc]

theorem Join_data (l : List String) (sep : String) :
    (Join l sep).data = sep.data.intercalate (l.map String.data) := by
  cases l with
  | nil => simp [Join, String.intercalate, List.intercalate]
  | cons a as =>
    simp only [Join, String.intercalate, intercalate_go_data, List.map_cons]
    rw [← flatten_map_sep]
    simp [List.map_map, Function.comp_def]

/-! ## Decimal rendering -/

theorem digitChar_isDigit (n : Nat) (h : n < 10) : (Nat.digitChar n).isDigit = true := by
  interval_cases n <;> decide

theorem digitChar_toNat (n : Nat) (h : n < 10) : (Nat.digitChar n).toNat - 48 = n := by
  interval_cases n <;> decide

theorem toDigitsCore_isDigit (f n : Nat) (ds : List Char) (c : Char)
    (hc : c ∈ Nat.toDigitsCore 10 f n ds) : c ∈ ds ∨ c.isDigit = true := by
  induction f generalizing n ds with
  | zero => exact Or.inl hc
  | succ f ih =>
    have hd := digitChar_isDigit (n % 10) (Nat.mod_lt _ (by decide))
    simp only [Nat.toDigitsCore] at hc
    split at hc
    · rcases List.mem_cons.1 hc with h | h
      · exact Or.inr (h ▸ hd)
      · exact Or.inl h
    · rcases ih _ _ hc with h | h
      · rcases List.mem_cons.1 h with h | h
        · exact Or.inr (h ▸ hd)
        · exact Or.inl h
      · exact Or.inr h

theorem toDigits_isDigit (n : Nat) (c : Char) (hc : c ∈ Nat.toDigits 10 n) :
    c.isDigit = true := by
  rcases toDigitsCore_isDigit _ _ _ _ hc with h | h
  · cases h
  · exact h

theorem toDigitsCore_value (f n : Nat) (ds : List Char) (h : n < f) :
    (Nat.toDigitsCore 10 f n ds).foldl (fun a c => 10 * a + (c.toNat - 48)) 0
      = ds.foldl (fun a c => 10 * a + (c.toNat - 48)) n := by
  induction f generalizing n ds with
  | zero => omega
  | succ f ih =>
    have hd := digitChar_toNat (n % 10) (Nat.mod_lt _ (by decide))
    simp only [Nat.toDigitsCore]
    split
    · rename_i h0
      simp only [List.foldl_cons, hd]
      congr 1
      omega
    · rename_i h0
      rw [ih (n / 10) _ (by omega)]
      simp only [List.foldl_cons, hd]
      congr 1
      omega

theorem toDigits_value (n : Nat) :
    (Nat.toDigits 10 n).foldl (fun a c => 10 * a + (c.toNat - 48)) 0 = n := by
  simpa using toDigitsCore_value (n + 1) n [] (Nat.lt_succ_self n)

theorem Itoa_natCast (n : Nat) : Itoa (n : Int) = String.mk (Nat.toDigits 10 n) := rfl

theorem Itoa_natCast_injective (m n : Nat) (h : Itoa (m : Int) = Itoa (n : Int)) : m = n := by
  rw [Itoa_natCast, Itoa_natCast] at h
  have h2 : Nat.toDigits 10 m = Nat.toDigits 10 n := by injection h
  rw [← toDigits_value m, h2, toDigits_value]

theorem Itoa_no_comma (i : Int) : ',' ∉ (Itoa i).data := by
  intro hc
  cases i with
  | ofNat n =>
    have := toDigits_isDigit n ',' hc
    revert this; decide
  | negSucc n =>
    have h1 : (Itoa (Int.negSucc n)).data = '-' :: Nat.toDigits 10 (n + 1) := rfl
    rw [h1] at hc
    rcases List.mem_cons.1 hc with h | h
    · revert h; decide
    · have := toDigits_isDigit _ ',' h
      revert this; decide

theorem intercalate_append (sep : List Char) (a b : List (List Char)) (ha : a ≠ [])
    (hb : b ≠ []) : sep.intercalate (a ++ b) = sep.intercalate a ++ sep ++ sep.intercalate b := by
  obtain ⟨x, xs, rfl⟩ := List.exists_cons_of_ne_nil ha
  obtain ⟨y, ys, rfl⟩ := List.exists_cons_of_ne_nil hb
  rw [List.cons_append, ← flatten_map_sep, ← flatten_map_sep, ← flatten_map_sep]
  simp [List.append_assoc]

theorem Join_append (a b : List String) (ha : a ≠ []) (hb : b ≠ []) :
    Join (a ++ b) "," = Join a "," ++ "," ++ Join b "," := by
  apply String.ext
  simp only [Join_data, String.data_append, List.map_append]
  exact intercalate_append _ _ _ (by simpa using ha) (by simpa using hb)

theorem split_Join (l : List String) (hl : l ≠ []) (h : ∀ f ∈ l, ',' ∉ f.data) :
    (Join l ",").data.splitOn ',' = l.map String.data := by
  rw [Join_data]
  exact List.splitOn_intercalate _ ',' (by simpa using h) (by simpa using hl)

/-! ## `serializePoints` against the slot list of the spec -/

theorem storePoints_append (pre mid post : List String) (values : List Int)
    (h : mid.length = values.length) :
    storePoints (pre ++ mid ++ post) pre.length values
      = some (pre ++ values.map Itoa ++ post) := by
  induction values generalizing pre mid with
  | nil =>
    have : mid = [] := List.length_eq_zero.1 h
    simp [storePoints, this]
  | cons v vs ih =>
    obtain ⟨m, mid', rfl⟩ : ∃ m mid', mid = m :: mid' := by
      cases mid with
      | nil => simp at h
      | cons m mid' => exact ⟨m, mid', rfl⟩
    have hset : setIndex (pre ++ m :: mid' ++ post) pre.length (Itoa v)
        = some ((pre ++ [Itoa v]) ++ mid' ++ post) := by
      simp [setIndex, List.append_assoc]
    have hlen : (pre ++ [Itoa v]).length = pre.length + 1 := by simp
    rw [storePoints, hset, Option.some_bind, ← hlen, ih (pre ++ [Itoa v]) mid' (by simpa using h)]
    simp [List.append_assoc]

theorem specSlots_length (values : List Int) (C : Nat) (h2 : 2 ≤ C) (hC : values.length ≤ C) :
    (specSlots values C).length = C := by
  unfold specSlots
  split <;> simp <;> omega

theorem specSlots_ne_nil (values : List Int) (C : Nat) (h2 : 2 ≤ C)
    (hC : values.length ≤ C) : specSlots values C ≠ [] := by
  intro h
  have := specSlots_length values C h2 hC
  rw [h] at this
  simp at this
  omega

theorem specSlots_no_comma (values : List Int) (C : Nat) :
    ∀ f ∈ specSlots values C, ',' ∉ f.data := by
  intro f hf
  unfold specSlots at hf
  split at hf
  · simp only [List.mem_cons, List.mem_replicate] at hf
    rcases hf with rfl | rfl | ⟨-, rfl⟩ <;> decide
  · rcases List.mem_append.1 hf with h | h
    · obtain ⟨v, -, rfl⟩ := List.mem_map.1 h
      exact Itoa_no_comma v
    · obtain ⟨-, rfl⟩ := List.mem_replicate.1 h
      decide

theorem serializePoints_eq (values : List Int) (C : Nat) (h2 : 2 ≤ C)
    (hC : values.length ≤ C) :
    serializePoints values C = some (Join (specSlots values C) ",") := by
  have hneg : ¬ ((C : Int) < 0) := by omega
  simp only [serializePoints, hneg, if_false, Int.toNat_ofNat, List.map_replicate, specSlots]
  split
  · obtain ⟨k, rfl⟩ : ∃ k, C = k + 2 := ⟨C - 2, by omega⟩
    simp [setIndex, List.replicate_succ, AFTERSHOT_CURVE_MAX]
    rfl
  · have hsplit : List.replicate C "0"
        = [] ++ List.replicate values.length "0" ++ List.replicate (C - values.length) "0" := by
      rw [List.nil_append, List.append_replicate_replicate]
      congr 1
      omega
    have := storePoints_append [] (List.replicate values.length "0")
      (List.replicate (C - values.length) "0") values (by simp)
    rw [← hsplit] at this
    simp only [List.length_nil, List.nil_append] at this
    simp [this]

theorem serializePoints_split (values : List Int) (C : Nat) (h2 : 2 ≤ C)
    (hC : values.length ≤ C) :
    (Join (specSlots values C) ",").data.splitOn ','
      = (specSlots values C).map String.data :=
  split_Join _ (specSlots_ne_nil values C h2 hC) (specSlots_no_comma values C)

/-! ## The tone-curve codec: claims -/

/-- C1: for a channel with n points and a capacity C with 2 ≤ n ≤ C, `SerializePointsIn C`
returns the comma-join of exactly C fields, the base-10 renderings of the In values in
order followed by `"0"` in every remaining slot; `SerializePointsOut C` does the same with
the Out values. -/
theorem serializePoints_fields_of_two_le (ch : AfterShotToneCurveChannel) (C : Nat)
    (h2 : 2 ≤ ch.Points.length) (hC : ch.Points.length ≤ C) :
    ∃ sIn sOut : String,
      ch.SerializePointsIn C = some sIn ∧ ch.SerializePointsOut C = some sOut ∧
      sIn = Join (ch.Points.map (fun p => Itoa p.In)
              ++ List.replicate (C - ch.Points.length) "0") "," ∧
      sIn.data.splitOn ',' = (ch.Points.map (fun p => Itoa p.In)
              ++ List.replicate (C - ch.Points.length) "0").map String.data ∧
      (sIn.data.splitOn ',').length = C ∧
      sOut = Join (ch.Points.map (fun p => Itoa p.Out)
              ++ List.replicate (C - ch.Points.length) "0") "," ∧
      sOut.data.splitOn ',' = (ch.Points.map (fun p => Itoa p.Out)
              ++ List.replicate (C - ch.Points.length) "0").map String.data ∧
      (sOut.data.splitOn ',').length = C := by
  have key : ∀ f : AfterShotToneCurvePoint → Int,
      serializePoints (ch.Points.map f) C
          = some (Join (ch.Points.map (fun p => Itoa (f p))
              ++ List.replicate (C - ch.Points.length) "0") ",") ∧
        (Join (ch.Points.map (fun p => Itoa (f p))
              ++ List.replicate (C - ch.Points.length) "0") ",").data.splitOn ','
          = (ch.Points.map (fun p => Itoa (f p))
              ++ List.replicate (C - ch.Points.length) "0").map String.data := by
    intro f
    have hlen : (ch.Points.map f).length = ch.Points.length := List.length_map _ _
    have hs : specSlots (ch.Points.map f) C
        = ch.Points.map (fun p => Itoa (f p))
            ++ List.replicate (C - ch.Points.length) "0" := by
      simp only [specSlots, hlen, List.map_map, Function.comp_def]
      rw [if_neg (by omega)]
    have e1 := serializePoints_eq (ch.Points.map f) C (by omega) (by omega)
    have e2 := serializePoints_split (ch.Points.map f) C (by omega) (by omega)
    rw [hs] at e1 e2
    exact ⟨e1, e2⟩
  refine ⟨_, _, (key fun p => p.In).1, (key fun p => p.Out).1, rfl, (key fun p => p.In).2, ?_,
    rfl, (key fun p => p.Out).2, ?_⟩
  · rw [(key fun p => p.In).2]; simp; omega
  · rw [(key fun p => p.Out).2]; simp; omega

/-- Instance of C1: three points at capacity 20. -/
theorem serializePoints_fields_of_two_le_witness :
    2 ≤ channel3.Points.length ∧ channel3.Points.length ≤ 20 ∧
    ∃ sIn sOut : String,
      channel3.SerializePointsIn (20 : Nat) = some sIn ∧
      channel3.SerializePointsOut (20 : Nat) = some sOut ∧
      sIn = Join (channel3.Points.map (fun p => Itoa p.In)
              ++ List.replicate (20 - channel3.Points.length) "0") "," ∧
      sIn.data.splitOn ',' = (channel3.Points.map (fun p => Itoa p.In)
              ++ List.replicate (20 - channel3.Points.length) "0").map String.data ∧
      (sIn.data.splitOn ',').length = 20 ∧
      sOut = Join (channel3.Points.map (fun p => Itoa p.Out)
              ++ List.replicate (20 - channel3.Points.length) "0") "," ∧
      sOut.data.splitOn ',' = (channel3.Points.map (fun p => Itoa p.Out)
              ++ List.replicate (20 - channel3.Points.length) "0").map String.data ∧
      (sOut.data.splitOn ',').length = 20 :=
  ⟨by decide, by decide, serializePoints_fields_of_two_le channel3 20 (by decide) (by decide)⟩

/-- C2: for a channel with fewer than two points and a capacity C ≥ 2, both
`SerializePointsIn C` and `SerializePointsOut C` are `"0,65535"` followed by C - 2 fields
`"0"`, C fields in all: a single point is discarded. -/
theorem serializePoints_default_of_lt_two (ch : AfterShotToneCurveChannel) (C : Nat)
    (h : ch.Points.length < 2) (hC : 2 ≤ C) :
    ch.SerializePointsIn C
        = some (Join ("0" :: "65535" :: List.replicate (C - 2) "0") ",") ∧
    ch.SerializePointsOut C
        = some (Join ("0" :: "65535" :: List.replicate (C - 2) "0") ",") ∧
    (Join ("0" :: "65535" :: List.replicate (C - 2) "0") ",").data.splitOn ','
        = ("0" :: "65535" :: List.replicate (C - 2) "0").map String.data ∧
    ("0" :: "65535" :: List.replicate (C - 2) "0").length = C := by
  have key : ∀ f : AfterShotToneCurvePoint → Int,
      specSlots (ch.Points.map f) C = "0" :: "65535" :: List.replicate (C - 2) "0" := by
    intro f
    simp only [specSlots, List.length_map]
    rw [if_pos h]
  have hl : ∀ f : AfterShotToneCurvePoint → Int, (ch.Points.map f).length ≤ C := by
    intro f; simp; omega
  have e1 := serializePoints_eq (ch.Points.map fun p => p.In) C hC (hl _)
  have e2 := serializePoints_eq (ch.Points.map fun p => p.Out) C hC (hl _)
  have e3 := serializePoints_split (ch.Points.map fun p => p.In) C hC (hl _)
  rw [key] at e1 e2 e3
  refine ⟨e1, e2, e3, ?_⟩
  simp; omega

/-- Instance of C2: a single point (5,7) at capacity 20. -/
theorem serializePoints_default_of_lt_two_witness :
    channel1.Points.length < 2 ∧ 2 ≤ 20 ∧
    channel1.SerializePointsIn (20 : Nat)
        = some (Join ("0" :: "65535" :: List.replicate (20 - 2) "0") ",") ∧
    channel1.SerializePointsOut (20 : Nat)
        = some (Join ("0" :: "65535" :: List.replicate (20 - 2) "0") ",") ∧
    (Join ("0" :: "65535" :: List.replicate (20 - 2) "0") ",").data.splitOn ','
        = ("0" :: "65535" :: List.replicate (20 - 2) "0").map String.data ∧
    ("0" :: "65535" :: List.replicate (20 - 2) "0").length = 20 :=
  ⟨by decide, by decide, serializePoints_default_of_lt_two channel1 20 (by decide) (by decide)⟩

/-- C3, the code at a failing input: with 21 points and capacity 20 the store
`serialized[20]` is out of range, and both serializers panic instead of returning 20
slots. -/
theorem serializePoints_panics_beyond_capacity :
    channel21.Points.length = 21 ∧
    channel21.SerializePointsIn 20 = none ∧ channel21.SerializePointsOut 20 = none := by
  decide

/-- C4: a channel's `SerializeNumberOfPoints` is `"2"` when it has fewer than two points and
the base-10 rendering of the number of points otherwise; it is never `"0"` or `"1"`. -/
theorem serializeNumberOfPoints_spec (ch : AfterShotToneCurveChannel) :
    (if ch.Points.length < 2 then ch.SerializeNumberOfPoints = "2"
      else ch.SerializeNumberOfPoints = Itoa ch.Points.length) ∧
    ch.SerializeNumberOfPoints ≠ "0" ∧ ch.SerializeNumberOfPoints ≠ "1" := by
  unfold AfterShotToneCurveChannel.SerializeNumberOfPoints
  split
  · exact ⟨rfl, by decide, by decide⟩
  · rename_i h
    refine ⟨rfl, ?_, ?_⟩
    · intro h0
      have := Itoa_natCast_injective ch.Points.length 0 h0
      omega
    · intro h1
      have := Itoa_natCast_injective ch.Points.length 1 h1
      omega

theorem serializeNumberOfPoints_no_comma (ch : AfterShotToneCurveChannel) :
    ',' ∉ ch.SerializeNumberOfPoints.data := by
  unfold AfterShotToneCurveChannel.SerializeNumberOfPoints
  split
  · decide
  · exact Itoa_no_comma _

/-- C5: the combined `SerializeNumberOfPoints` is the comma-join of exactly six fields:
`"4"`, `"1"`, then the point counts of the Rgb, Red, Green and Blue channels in that order,
each as given by the channel's own `SerializeNumberOfPoints`. -/
theorem combined_serializeNumberOfPoints_fields (c : AfterShotCombinedToneCurve) :
    c.SerializeNumberOfPoints
        = Join ["4", "1", c.Rgb.SerializeNumberOfPoints, c.Red.SerializeNumberOfPoints,
            c.Green.SerializeNumberOfPoints, c.Blue.SerializeNumberOfPoints] "," ∧
    c.SerializeNumberOfPoints.data.splitOn ','
        = ["4".data, "1".data, c.Rgb.SerializeNumberOfPoints.data,
            c.Red.SerializeNumberOfPoints.data, c.Green.SerializeNumberOfPoints.data,
            c.Blue.SerializeNumberOfPoints.data] ∧
    (c.SerializeNumberOfPoints.data.splitOn ',').length = 6 := by
  have e : c.SerializeNumberOfPoints
        = Join ["4", "1", c.Rgb.SerializeNumberOfPoints, c.Red.SerializeNumberOfPoints,
            c.Green.SerializeNumberOfPoints, c.Blue.SerializeNumberOfPoints] "," := by
    apply String.ext
    simp [AfterShotCombinedToneCurve.SerializeNumberOfPoints, Join, String.intercalate,
      String.intercalate.go, String.data_append]
  have hs := split_Join ["4", "1", c.Rgb.SerializeNumberOfPoints,
      c.Red.SerializeNumberOfPoints, c.Green.SerializeNumberOfPoints,
      c.Blue.SerializeNumberOfPoints] (by simp) (by
        intro f hf
        simp only [List.mem_cons, List.mem_singleton, List.not_mem_nil, or_false] at hf
        rcases hf with rfl | rfl | rfl | rfl | rfl | rfl
        · decide
        · decide
        all_goals exact serializeNumberOfPoints_no_comma _)
  rw [← e] at hs
  refine ⟨e, by simpa using hs, ?_⟩
  rw [hs]; rfl

theorem combined_layout (C : Nat) (a b c d : List String)
    (ha : a ≠ []) (hb : b ≠ []) (hc : c ≠ []) (hd : d ≠ []) :
    "4," ++ Itoa C ++ "," ++ Join a "," ++ "," ++ Join b "," ++ "," ++ Join c "," ++ ","
        ++ Join d ","
      = Join ("4" :: Itoa C :: (a ++ (b ++ (c ++ d)))) "," := by
  have h0 : ("4" :: Itoa C :: (a ++ (b ++ (c ++ d)))) = ["4", Itoa C] ++ (a ++ (b ++ (c ++ d))) :=
    rfl
  rw [h0, Join_append _ _ (by simp) (by simp [ha]), Join_append _ _ ha (by simp [hb]),
    Join_append _ _ hb (by simp [hc]), Join_append _ _ hc hd]
  apply String.ext
  simp [Join, String.intercalate, String.intercalate.go, String.data_append, List.append_assoc]

theorem combined_serialize (C : Nat) (h2 : 2 ≤ C) (a b c d : List Int)
    (ha : a.length ≤ C) (hb : b.length ≤ C) (hc : c.length ≤ C) (hd : d.length ≤ C) :
    ∃ rgb red green blue s : String,
      serializePoints a C = some rgb ∧ serializePoints b C = some red ∧
      serializePoints c C = some green ∧ serializePoints d C = some blue ∧
      s = "4," ++ Itoa C ++ "," ++ rgb ++ "," ++ red ++ "," ++ green ++ "," ++ blue ∧
      s = Join ["4", Itoa C, rgb, red, green, blue] "," ∧
      s.data.splitOn ',' = "4".data :: (Itoa C).data ::
        (rgb.data.splitOn ',' ++ (red.data.splitOn ',' ++
          (green.data.splitOn ',' ++ blue.data.splitOn ','))) ∧
      (rgb.data.splitOn ',').length = C ∧ (red.data.splitOn ',').length = C ∧
      (green.data.splitOn ',').length = C ∧ (blue.data.splitOn ',').length = C ∧
      (s.data.splitOn ',').length = 2 + 4 * C := by
  have na := specSlots_ne_nil a C h2 ha
  have nb := specSlots_ne_nil b C h2 hb
  have nc := specSlots_ne_nil c C h2 hc
  have nd := specSlots_ne_nil d C h2 hd
  have la := specSlots_length a C h2 ha
  have lb := specSlots_length b C h2 hb
  have lc := specSlots_length c C h2 hc
  have ld := specSlots_length d C h2 hd
  have hsplit : (Join ("4" :: Itoa C :: (specSlots a C ++ (specSlots b C
        ++ (specSlots c C ++ specSlots d C)))) ",").data.splitOn ','
      = ("4" :: Itoa C :: (specSlots a C ++ (specSlots b C
        ++ (specSlots c C ++ specSlots d C)))).map String.data := by
    apply split_Join _ (by simp)
    intro f hf
    simp only [List.mem_cons, List.mem_append] at hf
    rcases hf with rfl | rfl | h | h | h | h
    · decide
    · exact Itoa_no_comma _
    all_goals exact specSlots_no_comma _ _ f h
  refine ⟨_, _, _, _, _, serializePoints_eq a C h2 ha, serializePoints_eq b C h2 hb,
    serializePoints_eq c C h2 hc, serializePoints_eq d C h2 hd, rfl, ?_, ?_, ?_, ?_, ?_, ?_, ?_⟩
  · apply String.ext
    simp [Join, String.intercalate, String.intercalate.go, String.data_append]
  · rw [combined_layout C _ _ _ _ na nb nc nd, hsplit, serializePoints_split a C h2 ha,
      serializePoints_split b C h2 hb, serializePoints_split c C h2 hc,
      serializePoints_split d C h2 hd]
    simp
  · rw [serializePoints_split a C h2 ha, List.length_map, la]
  · rw [serializePoints_split b C h2 hb, List.length_map, lb]
  · rw [serializePoints_split c C h2 hc, List.length_map, lc]
  · rw [serializePoints_split d C h2 hd, List.length_map, ld]
  · rw [combined_layout C _ _ _ _ na nb nc nd, hsplit]
    simp [la, lb, lc, ld]
    omega

/-- C6: for a combined curve whose four channels each have at most C points (C ≥ 2),
`SerializePointsIn C` is the comma-join of `"4"`, the decimal rendering of C, and the four
C-slot In lists of the Rgb, Red, Green and Blue channels in that order, 2 + 4 * C fields
in all; `SerializePointsOut C` is the same with the Out lists. -/
theorem combined_serializePoints_fields (c : AfterShotCombinedToneCurve) (C : Nat)
    (h2 : 2 ≤ C) (hRgb : c.Rgb.Points.length ≤ C) (hRed : c.Red.Points.length ≤ C)
    (hGreen : c.Green.Points.length ≤ C) (hBlue : c.Blue.Points.length ≤ C) :
    (∃ rgb red green blue s : String,
      c.Rgb.SerializePointsIn C = some rgb ∧ c.Red.SerializePointsIn C = some red ∧
      c.Green.SerializePointsIn C = some green ∧ c.Blue.SerializePointsIn C = some blue ∧
      c.SerializePointsIn C = some s ∧
      s = Join ["4", Itoa C, rgb, red, green, blue] "," ∧
      s.data.splitOn ',' = "4".data :: (Itoa C).data ::
        (rgb.data.splitOn ',' ++ (red.data.splitOn ',' ++
          (green.data.splitOn ',' ++ blue.data.splitOn ','))) ∧
      (rgb.data.splitOn ',').length = C ∧ (red.data.splitOn ',').length = C ∧
      (green.data.splitOn ',').length = C ∧ (blue.data.splitOn ',').length = C ∧
      (s.data.splitOn ',').length = 2 + 4 * C) ∧
    (∃ rgb red green blue s : String,
      c.Rgb.SerializePointsOut C = some rgb ∧ c.Red.SerializePointsOut C = some red ∧
      c.Green.SerializePointsOut C = some green ∧ c.Blue.SerializePointsOut C = some blue ∧
      c.SerializePointsOut C = some s ∧
      s = Join ["4", Itoa C, rgb, red, green, blue] "," ∧
      s.data.splitOn ',' = "4".data :: (Itoa C).data ::
        (rgb.data.splitOn ',' ++ (red.data.splitOn ',' ++
          (green.data.splitOn ',' ++ blue.data.splitOn ','))) ∧
      (rgb.data.splitOn ',').length = C ∧ (red.data.splitOn ',').length = C ∧
      (green.data.splitOn ',').length = C ∧ (blue.data.splitOn ',').length = C ∧
      (s.data.splitOn ',').length = 2 + 4 * C) := by
  have key : ∀ f : AfterShotToneCurvePoint → Int, _ := fun f =>
    combined_serialize C h2 (c.Rgb.Points.map f) (c.Red.Points.map f) (c.Green.Points.map f)
      (c.Blue.Points.map f) (by simpa using hRgb) (by simpa using hRed)
      (by simpa using hGreen) (by simpa using hBlue)
  constructor
  · obtain ⟨rgb, red, green, blue, s, h1, h2, h3, h4, hs, rest⟩ := key fun p => p.In
    refine ⟨rgb, red, green, blue, s, h1, h2, h3, h4, ?_, rest⟩
    simp only [AfterShotCombinedToneCurve.SerializePointsIn,
      AfterShotToneCurveChannel.SerializePointsIn, h1, h2, h3, h4, hs]
    rfl
  · obtain ⟨rgb, red, green, blue, s, h1, h2, h3, h4, hs, rest⟩ := key fun p => p.Out
    refine ⟨rgb, red, green, blue, s, h1, h2, h3, h4, ?_, rest⟩
    simp only [AfterShotCombinedToneCurve.SerializePointsOut,
      AfterShotToneCurveChannel.SerializePointsOut, h1, h2, h3, h4, hs]
    rfl

/-- Instance of C6: the curve `combined3` at capacity 20. -/
theorem combined_serializePoints_fields_witness :
    2 ≤ 20 ∧ combined3.Rgb.Points.length ≤ 20 ∧ combined3.Red.Points.length ≤ 20 ∧
    combined3.Green.Points.length ≤ 20 ∧ combined3.Blue.Points.length ≤ 20 ∧
    (∃ rgb red green blue s : String,
      combined3.Rgb.SerializePointsIn (20 : Nat) = some rgb ∧ combined3.Red.SerializePointsIn (20 : Nat) = some red ∧
      combined3.Green.SerializePointsIn (20 : Nat) = some green ∧ combined3.Blue.SerializePointsIn (20 : Nat) = some blue ∧
      combined3.SerializePointsIn (20 : Nat) = some s ∧
      s = Join ["4", Itoa (20 : Nat), rgb, red, green, blue] "," ∧
      s.data.splitOn ',' = "4".data :: (Itoa (20 : Nat)).data ::
        (rgb.data.splitOn ',' ++ (red.data.splitOn ',' ++
          (green.data.splitOn ',' ++ blue.data.splitOn ','))) ∧
      (rgb.data.splitOn ',').length = (20 : Nat) ∧ (red.data.splitOn ',').length = (20 : Nat) ∧
      (green.data.splitOn ',').length = (20 : Nat) ∧ (blue.data.splitOn ',').length = (20 : Nat) ∧
      (s.data.splitOn ',').length = 2 + 4 * (20 : Nat)) ∧
    (∃ rgb red green blue s : String,
      combined3.Rgb.SerializePointsOut (20 : Nat) = some rgb ∧ combined3.Red.SerializePointsOut (20 : Nat) = some red ∧
      combined3.Green.SerializePointsOut (20 : Nat) = some green ∧ combined3.Blue.SerializePointsOut (20 : Nat) = some blue ∧
      combined3.SerializePointsOut (20 : Nat) = some s ∧
      s = Join ["4", Itoa (20 : Nat), rgb, red, green, blue] "," ∧
      s.data.splitOn ',' = "4".data :: (Itoa (20 : Nat)).data ::
        (rgb.data.splitOn ',' ++ (red.data.splitOn ',' ++
          (green.data.splitOn ',' ++ blue.data.splitOn ','))) ∧
      (rgb.data.splitOn ',').length = (20 : Nat) ∧ (red.data.splitOn ',').length = (20 : Nat) ∧
      (green.data.splitOn ',').length = (20 : Nat) ∧ (blue.data.splitOn ',').length = (20 : Nat) ∧
      (s.data.splitOn ',').length = 2 + 4 * (20 : Nat)) :=
  ⟨by decide, by decide, by decide, by decide, by decide,
    combined_serializePoints_fields combined3 20 (by decide) (by decide) (by decide)
      (by decide) (by decide)⟩

/-! ## The conversion: tone curve -/

theorem wrapInt64_eq_self (x : Int) (h1 : -(2 ^ 63) ≤ x) (h2 : x < 2 ^ 63) : wrapInt64 x = x := by
  unfold wrapInt64 Int.bmod
  norm_num at h1 h2 ⊢
  omega

theorem run_toneCurve (rt : GoRuntime) (m : AttributeMapper) (preset : AfterShotPreset)
    (name value : String) : (m.run rt preset name value).1.ToneCurve = preset.ToneCurve := by
  cases m <;> rfl

theorem mapStep_toneCurve (rt : GoRuntime) (state : AfterShotPreset × List LogEntry)
    (entry : String × String) : (mapStep rt state entry).1.ToneCurve = state.1.ToneCurve := by
  unfold mapStep
  split
  · rfl
  · exact run_toneCurve _ _ _ _ _

theorem foldl_mapStep_toneCurve (rt : GoRuntime) (entries : List (String × String))
    (state : AfterShotPreset × List LogEntry) :
    (entries.foldl (mapStep rt) state).1.ToneCurve = state.1.ToneCurve := by
  induction entries generalizing state with
  | nil => rfl
  | cons e es ih => rw [List.foldl_cons, ih, mapStep_toneCurve]

theorem passes_toneCurve (lightroom : LightroomPreset)
    (state : AfterShotPreset × List LogEntry) :
    (postMappingPasses.foldl (passStep lightroom) state).1.ToneCurve = state.1.ToneCurve := by
  simp only [postMappingPasses, List.foldl_cons, List.foldl_nil, passStep, grayscalePass,
    texturePass, dehazePass, unsupportedPass]
  split_ifs <;> rfl

theorem result_toneCurve (rt : GoRuntime) (lightroom : LightroomPreset) :
    (NewAftershotPresetFromLightroom rt lightroom).1.ToneCurve
      = newAfterShotCombinedToneCurveFromLightRoomToneCurve lightroom.ToneCurve := by
  unfold NewAftershotPresetFromLightroom
  simp only [passes_toneCurve, foldl_mapStep_toneCurve]

theorem channel_scaled (curve : LightroomToneCurve) (h : curve.scalable) :
    (newAfterShotToneCurveChannelFromLightRoomToneCurveChannel curve).Points
      = curve.Points.map (fun p => ⟨257 * p.In, 257 * p.Out⟩) := by
  unfold newAfterShotToneCurveChannelFromLightRoomToneCurveChannel
  apply List.map_congr_left
  intro p hp
  obtain ⟨⟨a1, a2⟩, ⟨b1, b2⟩⟩ := h p hp
  have hm : AFTERSHOT_CURVE_MAX / LIGHTROOM_CURVE_MAX = 257 := by decide
  simp only [newAfterShotToneCurvePointFromLightroomToneCurvePoint, hm]
  rw [wrapInt64_eq_self _ (by omega) (by omega), wrapInt64_eq_self _ (by omega) (by omega)]
  simp [mul_comm]

theorem channel_wrapped (curve : LightroomToneCurve) :
    (newAfterShotToneCurveChannelFromLightRoomToneCurveChannel curve).Points
      = curve.Points.map (fun p => ⟨wrapInt64 (257 * p.In), wrapInt64 (257 * p.Out)⟩) := by
  unfold newAfterShotToneCurveChannelFromLightRoomToneCurveChannel
  apply List.map_congr_left
  intro p _
  have hm : AFTERSHOT_CURVE_MAX / LIGHTROOM_CURVE_MAX = 257 := by decide
  simp only [newAfterShotToneCurvePointFromLightroomToneCurvePoint, hm]
  rw [Int.mul_comm p.In 257, Int.mul_comm p.Out 257]

/-- C7 at an explicit input: the source Rgb point (2^62, 0), whose coordinates are values of
`int`, becomes (2^62, 0) and not (257 * 2^62, 0): the product is taken in 64-bit
arithmetic. -/
theorem toneCurve_wraps_beyond_int64 :
    (-(2 ^ 63) ≤ (2 ^ 62 : Int) ∧ (2 ^ 62 : Int) < 2 ^ 63) ∧
    overflowPreset.ToneCurve.Rgb.Points = [⟨2 ^ 62, 0⟩] ∧
    (NewAftershotPresetFromLightroom exampleRuntime overflowPreset).1.ToneCurve.Rgb.Points
      = [⟨2 ^ 62, 0⟩] ∧
    (NewAftershotPresetFromLightroom exampleRuntime overflowPreset).1.ToneCurve.Rgb.Points
      ≠ overflowPreset.ToneCurve.Rgb.Points.map (fun p => ⟨257 * p.In, 257 * p.Out⟩) := by
  refine ⟨by decide, by decide, by decide, by decide⟩

/-- C7 as amended: for every source preset the target tone curve has in each of the four
channels as many points as the source channel, in the same order, the source point (x, y)
having become (257 * x, 257 * y) in 64-bit arithmetic, with 257 = 65535 / 255; a product
that lies in the range of `int` is the product itself, as it is for the coordinates 0 to
255 of the source format, so a channel with such coordinates becomes exactly its multiple
by 257; the Rgb points (0,18), (39,28), (255,240) serialize at capacity 20 to
`0,10023,65535` followed by 17 slots `0`. -/
theorem toneCurve_scaled_wrapping (rt : GoRuntime) (lightroom : LightroomPreset) :
    AFTERSHOT_CURVE_MAX / LIGHTROOM_CURVE_MAX = 257 ∧
    (NewAftershotPresetFromLightroom rt lightroom).1.ToneCurve.Rgb.Points
        = lightroom.ToneCurve.Rgb.Points.map
            (fun p => ⟨wrapInt64 (257 * p.In), wrapInt64 (257 * p.Out)⟩) ∧
    (NewAftershotPresetFromLightroom rt lightroom).1.ToneCurve.Red.Points
        = lightroom.ToneCurve.Red.Points.map
            (fun p => ⟨wrapInt64 (257 * p.In), wrapInt64 (257 * p.Out)⟩) ∧
    (NewAftershotPresetFromLightroom rt lightroom).1.ToneCurve.Green.Points
        = lightroom.ToneCurve.Green.Points.map
            (fun p => ⟨wrapInt64 (257 * p.In), wrapInt64 (257 * p.Out)⟩) ∧
    (NewAftershotPresetFromLightroom rt lightroom).1.ToneCurve.Blue.Points
        = lightroom.ToneCurve.Blue.Points.map
            (fun p => ⟨wrapInt64 (257 * p.In), wrapInt64 (257 * p.Out)⟩) ∧
    (NewAftershotPresetFromLightroom rt lightroom).1.ToneCurve.Rgb.Points.length
        = lightroom.ToneCurve.Rgb.Points.length ∧
    (NewAftershotPresetFromLightroom rt lightroom).1.ToneCurve.Red.Points.length
        = lightroom.ToneCurve.Red.Points.length ∧
    (NewAftershotPresetFromLightroom rt lightroom).1.ToneCurve.Green.Points.length
        = lightroom.ToneCurve.Green.Points.length ∧
    (NewAftershotPresetFromLightroom rt lightroom).1.ToneCurve.Blue.Points.length
        = lightroom.ToneCurve.Blue.Points.length ∧
    (∀ x : Int, -(2 ^ 63) ≤ 257 * x → 257 * x < 2 ^ 63 → wrapInt64 (257 * x) = 257 * x) ∧
    (∀ x : Int, 0 ≤ x → x ≤ 255 → wrapInt64 (257 * x) = 257 * x) ∧
    (lightroom.ToneCurve.Rgb.scalable →
      (NewAftershotPresetFromLightroom rt lightroom).1.ToneCurve.Rgb.Points
        = lightroom.ToneCurve.Rgb.Points.map (fun p => ⟨257 * p.In, 257 * p.Out⟩)) ∧
    (lightroom.ToneCurve.Red.scalable →
      (NewAftershotPresetFromLightroom rt lightroom).1.ToneCurve.Red.Points
        = lightroom.ToneCurve.Red.Points.map (fun p => ⟨257 * p.In, 257 * p.Out⟩)) ∧
    (lightroom.ToneCurve.Green.scalable →
      (NewAftershotPresetFromLightroom rt lightroom).1.ToneCurve.Green.Points
        = lightroom.ToneCurve.Green.Points.map (fun p => ⟨257 * p.In, 257 * p.Out⟩)) ∧
    (lightroom.ToneCurve.Blue.scalable →
      (NewAftershotPresetFromLightroom rt lightroom).1.ToneCurve.Blue.Points
        = lightroom.ToneCurve.Blue.Points.map (fun p => ⟨257 * p.In, 257 * p.Out⟩)) ∧
    (lightroom.ToneCurve.Rgb.Points = [⟨0, 18⟩, ⟨39, 28⟩, ⟨255, 240⟩] →
      (NewAftershotPresetFromLightroom rt lightroom).1.ToneCurve.Rgb.SerializePointsIn 20
        = some "0,10023,65535,0,0,0,0,0,0,0,0,0,0,0,0,0,0,0,0,0") := by
  rw [result_toneCurve]
  have hfit : ∀ x : Int, -(2 ^ 63) ≤ 257 * x → 257 * x < 2 ^ 63 →
      wrapInt64 (257 * x) = 257 * x := fun x h1 h2 => wrapInt64_eq_self _ h1 h2
  refine ⟨by decide, channel_wrapped _, channel_wrapped _, channel_wrapped _,
    channel_wrapped _, ?_, ?_, ?_, ?_, hfit, ?_, channel_scaled _, channel_scaled _,
    channel_scaled _, channel_scaled _, ?_⟩
  · simp [newAfterShotCombinedToneCurveFromLightRoomToneCurve,
      newAfterShotToneCurveChannelFromLightRoomToneCurveChannel]
  · simp [newAfterShotCombinedToneCurveFromLightRoomToneCurve,
      newAfterShotToneCurveChannelFromLightRoomToneCurveChannel]
  · simp [newAfterShotCombinedToneCurveFromLightRoomToneCurve,
      newAfterShotToneCurveChannelFromLightRoomToneCurveChannel]
  · simp [newAfterShotCombinedToneCurveFromLightRoomToneCurve,
      newAfterShotToneCurveChannelFromLightRoomToneCurveChannel]
  · intro x h0 h255
    exact hfit x (by omega) (by omega)
  · intro hpts
    have e1 := channel_wrapped lightroom.ToneCurve.Rgb
    simp only [newAfterShotCombinedToneCurveFromLightRoomToneCurve] at e1 ⊢
    rw [hpts] at e1
    simp only [AfterShotToneCurveChannel.SerializePointsIn, e1]
    decide

/-- Instance of C7 as amended: the curve (0,18), (39,28), (255,240) on Rgb. -/
theorem toneCurve_scaled_wrapping_witness :
    AFTERSHOT_CURVE_MAX / LIGHTROOM_CURVE_MAX = 257 ∧
    (NewAftershotPresetFromLightroom exampleRuntime curvePreset).1.ToneCurve.Rgb.Points
        = curvePreset.ToneCurve.Rgb.Points.map
            (fun p => ⟨wrapInt64 (257 * p.In), wrapInt64 (257 * p.Out)⟩) ∧
    (NewAftershotPresetFromLightroom exampleRuntime curvePreset).1.ToneCurve.Red.Points
        = curvePreset.ToneCurve.Red.Points.map
            (fun p => ⟨wrapInt64 (257 * p.In), wrapInt64 (257 * p.Out)⟩) ∧
    (NewAftershotPresetFromLightroom exampleRuntime curvePreset).1.ToneCurve.Green.Points
        = curvePreset.ToneCurve.Green.Points.map
            (fun p => ⟨wrapInt64 (257 * p.In), wrapInt64 (257 * p.Out)⟩) ∧
    (NewAftershotPresetFromLightroom exampleRuntime curvePreset).1.ToneCurve.Blue.Points
        = curvePreset.ToneCurve.Blue.Points.map
            (fun p => ⟨wrapInt64 (257 * p.In), wrapInt64 (257 * p.Out)⟩) ∧
    (NewAftershotPresetFromLightroom exampleRuntime curvePreset).1.ToneCurve.Rgb.Points.length
        = curvePreset.ToneCurve.Rgb.Points.length ∧
    (NewAftershotPresetFromLightroom exampleRuntime curvePreset).1.ToneCurve.Red.Points.length
        = curvePreset.ToneCurve.Red.Points.length ∧
    (NewAftershotPresetFromLightroom exampleRuntime curvePreset).1.ToneCurve.Green.Points.length
        = curvePreset.ToneCurve.Green.Points.length ∧
    (NewAftershotPresetFromLightroom exampleRuntime curvePreset).1.ToneCurve.Blue.Points.length
        = curvePreset.ToneCurve.Blue.Points.length ∧
    (∀ x : Int, -(2 ^ 63) ≤ 257 * x → 257 * x < 2 ^ 63 → wrapInt64 (257 * x) = 257 * x) ∧
    (∀ x : Int, 0 ≤ x → x ≤ 255 → wrapInt64 (257 * x) = 257 * x) ∧
    (curvePreset.ToneCurve.Rgb.scalable →
      (NewAftershotPresetFromLightroom exampleRuntime curvePreset).1.ToneCurve.Rgb.Points
        = curvePreset.ToneCurve.Rgb.Points.map (fun p => ⟨257 * p.In, 257 * p.Out⟩)) ∧
    (curvePreset.ToneCurve.Red.scalable →
      (NewAftershotPresetFromLightroom exampleRuntime curvePreset).1.ToneCurve.Red.Points
        = curvePreset.ToneCurve.Red.Points.map (fun p => ⟨257 * p.In, 257 * p.Out⟩)) ∧
    (curvePreset.ToneCurve.Green.scalable →
      (NewAftershotPresetFromLightroom exampleRuntime curvePreset).1.ToneCurve.Green.Points
        = curvePreset.ToneCurve.Green.Points.map (fun p => ⟨257 * p.In, 257 * p.Out⟩)) ∧
    (curvePreset.ToneCurve.Blue.scalable →
      (NewAftershotPresetFromLightroom exampleRuntime curvePreset).1.ToneCurve.Blue.Points
        = curvePreset.ToneCurve.Blue.Points.map (fun p => ⟨257 * p.In, 257 * p.Out⟩)) ∧
    (curvePreset.ToneCurve.Rgb.Points = [⟨0, 18⟩, ⟨39, 28⟩, ⟨255, 240⟩] →
      (NewAftershotPresetFromLightroom exampleRuntime curvePreset).1.ToneCurve.Rgb.SerializePointsIn 20
        = some "0,10023,65535,0,0,0,0,0,0,0,0,0,0,0,0,0,0,0,0,0") :=
  toneCurve_scaled_wrapping exampleRuntime curvePreset

/-! ## The conversion: attributes -/

theorem run_frame (rt : GoRuntime) (m : AttributeMapper) (preset : AfterShotPreset)
    (name value d : String) (h : m.destination? ≠ some d) :
    (m.run rt preset name value).1.Attributes d = preset.Attributes d := by
  cases m <;> simp_all [AttributeMapper.run, AttributeMapper.destination?, setAttr] <;>
    (intro hd; exact absurd hd.symm h)

theorem mem_of_lookup {β : Type} (k : String) (v : β) (l : List (String × β))
    (h : l.lookup k = some v) : (k, v) ∈ l := by
  induction l with
  | nil => simp at h
  | cons e es ih =>
    obtain ⟨k', v'⟩ := e
    by_cases hk : k = k'
    · subst hk
      simp [List.lookup] at h
      simp [h]
    · have hb : (k == k') = false := by simpa using hk
      simp only [List.lookup, hb] at h
      exact List.mem_cons_of_mem _ (ih h)

theorem lookup_of_mem_nodup {β : Type} (k : String) (v : β) (l : List (String × β))
    (hn : (l.map Prod.fst).Nodup) (h : (k, v) ∈ l) : l.lookup k = some v := by
  induction l with
  | nil => simp at h
  | cons e es ih =>
    obtain ⟨k', v'⟩ := e
    simp only [List.map_cons, List.nodup_cons] at hn
    rcases List.mem_cons.1 h with h | h
    · injection h with h1 h2
      subst h1 h2
      simp [List.lookup]
    · have hk : k ≠ k' := by
        intro hkk
        apply hn.1
        rw [← hkk]
        exact List.mem_map.2 ⟨(k, v), h, rfl⟩
      have hb : (k == k') = false := by simpa using hk
      simp only [List.lookup, hb]
      exact ih hn.2 h

/-- A step of the loop leaves the field `d` alone unless the table sends the entry's key
to `d`. -/
theorem mapStep_frame (rt : GoRuntime) (state : AfterShotPreset × List LogEntry)
    (entry : String × String) (d : String)
    (h : ∀ m, (entry.1, m) ∈ attributeMappers → m.destination? ≠ some d) :
    (mapStep rt state entry).1.Attributes d = state.1.Attributes d := by
  unfold mapStep
  split
  · rfl
  · apply run_frame
    cases hl : attributeMappers.lookup entry.1 with
    | none => simp [AttributeMapper.destination?]
    | some m => simpa using h m (mem_of_lookup _ _ _ hl)

theorem foldl_mapStep_frame (rt : GoRuntime) (entries : List (String × String))
    (state : AfterShotPreset × List LogEntry) (d : String)
    (h : ∀ e ∈ entries, ∀ m, (e.1, m) ∈ attributeMappers → m.destination? ≠ some d) :
    (entries.foldl (mapStep rt) state).1.Attributes d = state.1.Attributes d := by
  induction entries generalizing state with
  | nil => rfl
  | cons e es ih =>
    rw [List.foldl_cons, ih _ (fun e' he' => h e' (List.mem_cons_of_mem _ he')),
      mapStep_frame rt state e d (h e (List.mem_cons_self _ _))]

/-- The field `d` after the loop, when the table sends exactly one key to `d` and the source
holds that key with a non-empty value: what that key's mapper stored. -/
theorem foldl_mapStep_written (rt : GoRuntime) (entries : List (String × String))
    (state : AfterShotPreset × List LogEntry) (key value d : String) (m : AttributeMapper)
    (hn : (entries.map Prod.fst).Nodup) (hmem : (key, value) ∈ entries) (hne : value ≠ "")
    (hm : attributeMappers.lookup key = some m)
    (honly : ∀ k' m', (k', m') ∈ attributeMappers → m'.destination? = some d → k' = key) :
    (entries.foldl (mapStep rt) state).1.Attributes d
      = (m.run rt state.1 key value).1.Attributes d := by
  induction entries generalizing state with
  | nil => simp at hmem
  | cons e es ih =>
    simp only [List.map_cons, List.nodup_cons] at hn
    rw [List.foldl_cons]
    rcases List.mem_cons.1 hmem with h | h
    · subst h
      rw [foldl_mapStep_frame]
      · simp only [mapStep, hne, if_false, hm, Option.getD_some]
      · intro e' he' m' hm' hd
        have := honly _ _ hm' hd
        exact hn.1 (List.mem_map.2 ⟨e', he', this⟩)
    · rw [ih _ hn.2 h]
      have hek : e.1 ≠ key := by
        intro hk
        exact hn.1 (List.mem_map.2 ⟨(key, value), h, hk.symm⟩)
      have hd : m.destination? = some d ∨ m.destination? ≠ some d := em _
      have hframe : (mapStep rt state e).1.Attributes d = state.1.Attributes d :=
        mapStep_frame rt state e d (fun m' hm' hd' => hek (honly _ _ hm' hd'))
      cases m with
      | copyValueDirectly dest => simp [AttributeMapper.run, setAttr, hframe]
      | absInt dest => simp [AttributeMapper.run, setAttr, hframe]
      | applyMultiplier dest mult => simp [AttributeMapper.run, setAttr, hframe]
      | todo => simpa [AttributeMapper.run] using hframe
      | ignore => simpa [AttributeMapper.run] using hframe

/-- The passes leave every field alone that is not one of their seven destinations. -/
theorem passes_frame (lightroom : LightroomPreset) (state : AfterShotPreset × List LogEntry)
    (d : String) (h : d ∉ passDestinations) :
    (postMappingPasses.foldl (passStep lightroom) state).1.Attributes d
      = state.1.Attributes d := by
  simp only [passDestinations, List.mem_cons, List.mem_singleton, List.not_mem_nil, or_false,
    not_or] at h
  obtain ⟨h1, h2, h3, h4, h5, h6, h7⟩ := h
  simp only [postMappingPasses, List.foldl_cons, List.foldl_nil, passStep, grayscalePass,
    texturePass, dehazePass, unsupportedPass]
  split_ifs <;> simp [setAttr, h1, h2, h3, h4, h5, h6, h7]

/-- C8, the code at a failing input: `emptyAttributeSet` holds `bopt:scont = "0"`, but the
preset converted from a source without attributes has no `bopt:scont`, nor any other
default that is not set again afterwards: the assignment of the two always-on fields
replaces the whole map. -/
theorem defaults_lost_for_empty_preset (rt : GoRuntime) :
    emptyAttributeSet "bopt:scont" = some "0" ∧
    (NewAftershotPresetFromLightroom rt emptyLightroomPreset).1.Attributes "bopt:scont" = none ∧
    (NewAftershotPresetFromLightroom rt emptyLightroomPreset).1.Attributes
      "bopt:highlightrecval" = none ∧
    (NewAftershotPresetFromLightroom rt emptyLightroomPreset).1.Attributes
      "bopt:fillamount" = none ∧
    (NewAftershotPresetFromLightroom rt emptyLightroomPreset).1.Attributes
      "bopt:Equalizer_kb.kbs_redhue" = none ∧
    (NewAftershotPresetFromLightroom rt emptyLightroomPreset).1.Attributes
      "bopt:Equalizer_kb.kbs_enabled" = some "true" := by
  exact ⟨by decide, rfl, rfl, rfl, rfl, rfl⟩

/-! ### Failed parses -/

theorem parseFloat_syntax_value (rt : GoRuntime) (value : String)
    (h : (ParseFloat rt value).2 = some ParseError.ErrSyntax) :
    (ParseFloat rt value).1 = Float64.finite false 0 := by
  unfold ParseFloat at h ⊢
  split at h
  · split at h <;> simp at h
  · split at h
    · rename_i hall
      simp only [hall, if_true]
      split at h <;> simp_all
    · rename_i hall
      simp only [hall]
      rfl

theorem roundHalfEven_zero (b : Nat) : roundHalfEven 0 b = 0 := by
  simp [roundHalfEven]

theorem roundToFloat64_zero (q : Nat) : roundToFloat64 0 q = some 0 := by
  have hb : bitLength 0 = 0 := rfl
  unfold roundToFloat64
  simp only [Nat.zero_mul, Nat.zero_div, hb, Nat.zero_sub, roundHalfEven_zero]
  exact if_pos (Nat.two_pow_pos _)

theorem zero_mul_finite (k : Nat) :
    (Float64.finite false 0).mul (Float64.finite false k) = Float64.finite false 0 := by
  have h : roundToFloat64 (0 * k) (2 ^ 2148) = some 0 := by
    rw [Nat.zero_mul]; exact roundToFloat64_zero _
  show (match roundToFloat64 (0 * k) (2 ^ 2148) with
    | some r => Float64.finite (xor false false) r
    | none => Float64.inf (xor false false)) = _
  rw [h]
  rfl

/-- C9 at an explicit input: the value `high` does not parse, and both the absolute-value
transform and the linear-scale transform still store into their destination field, so the
attribute map after the transform is not the map before it. -/
theorem failed_parse_changes_map :
    (ParseFloat exampleRuntime "high").2 = some ParseError.ErrSyntax ∧
    seededPreset.Attributes "bopt:highlightrecval" = none ∧
    ((AttributeMapper.absInt "bopt:highlightrecval").run exampleRuntime seededPreset
        "Highlights2012" "high").1.Attributes "bopt:highlightrecval" = some "0" ∧
    ((AttributeMapper.absInt "bopt:highlightrecval").run exampleRuntime seededPreset
        "Highlights2012" "high").1.Attributes ≠ seededPreset.Attributes ∧
    seededPreset.Attributes "bopt:fillamount" = none ∧
    ((AttributeMapper.applyMultiplier "bopt:fillamount" (float64Const 1 100)).run exampleRuntime
        seededPreset "Shadows2012" "high").1.Attributes "bopt:fillamount" = some "0.000000" ∧
    ((AttributeMapper.applyMultiplier "bopt:fillamount" (float64Const 1 100)).run exampleRuntime
        seededPreset "Shadows2012" "high").1.Attributes ≠ seededPreset.Attributes := by
  have h1 : ((AttributeMapper.absInt "bopt:highlightrecval").run exampleRuntime seededPreset
        "Highlights2012" "high").1.Attributes "bopt:highlightrecval" = some "0" := by decide
  have h2 : ((AttributeMapper.applyMultiplier "bopt:fillamount" (float64Const 1 100)).run
        exampleRuntime seededPreset "Shadows2012" "high").1.Attributes "bopt:fillamount"
        = some "0.000000" := by decide
  have n1 : seededPreset.Attributes "bopt:highlightrecval" = none := by decide
  have n2 : seededPreset.Attributes "bopt:fillamount" = none := by decide
  refine ⟨by decide, n1, h1, ?_, n2, h2, ?_⟩
  · intro h
    rw [h, n1] at h1
    cases h1
  · intro h
    rw [h, n2] at h2
    cases h2

/-- C9 as amended: when `strconv.ParseFloat` rejects the value as malformed, the
absolute-value transform and a linear-scale transform with a finite multiplier that is not
negative (as 0.01, 0.7 and 2 are) log the warning and store the zero that the parser
returned: `"0"` and `"0.000000"` in the destination field; every other field keeps its
value. -/
theorem failed_parse_stores_zero (rt : GoRuntime) (preset : AfterShotPreset)
    (name value destination : String) (k : Nat)
    (herr : (ParseFloat rt value).2 = some ParseError.ErrSyntax) :
    ((AttributeMapper.absInt destination).run rt preset name value).1.Attributes destination
        = some "0" ∧
    ((AttributeMapper.applyMultiplier destination (Float64.finite false k)).run rt preset
        name value).1.Attributes destination = some "0.000000" ∧
    (∀ d, d ≠ destination →
      ((AttributeMapper.absInt destination).run rt preset name value).1.Attributes d
          = preset.Attributes d ∧
      ((AttributeMapper.applyMultiplier destination (Float64.finite false k)).run rt preset
          name value).1.Attributes d = preset.Attributes d) ∧
    ((AttributeMapper.absInt destination).run rt preset name value).2
        = [LogEntry.couldNotConvert value ParseError.ErrSyntax] ∧
    ((AttributeMapper.applyMultiplier destination (Float64.finite false k)).run rt preset
        name value).2 = [LogEntry.couldNotConvert value ParseError.ErrSyntax] ∧
    (∃ k1 k2 k3, float64Const 1 100 = Float64.finite false k1 ∧
      float64Const 7 10 = Float64.finite false k2 ∧
      float64Const 2 1 = Float64.finite false k3) := by
  have hv := parseFloat_syntax_value rt value herr
  have hz : Itoa (floatToInt rt (Float64.finite false 0).abs) = "0" := by
    simp [Float64.abs, floatToInt]
    rfl
  have hf : (Float64.finite false 0).formatF = "0.000000" := by decide
  refine ⟨?_, ?_, ?_, ?_, ?_, ⟨_, _, _, rfl, rfl, rfl⟩⟩
  · simp [AttributeMapper.run, setAttr, hv, hz]
  · simp [AttributeMapper.run, setAttr, hv, zero_mul_finite, hf]
  · intro d hd
    simp [AttributeMapper.run, setAttr, hd]
  · simp [AttributeMapper.run, parseWarning, herr]
  · simp [AttributeMapper.run, parseWarning, herr]

/-- Instance of C9 as amended: the value `high` for `bopt:highlightrecval`, with the
multiplier 0.01. -/
theorem failed_parse_stores_zero_witness :
    (ParseFloat exampleRuntime "high").2 = some ParseError.ErrSyntax ∧
    ((AttributeMapper.absInt "bopt:highlightrecval").run exampleRuntime seededPreset "Highlights2012" "high").1.Attributes "bopt:highlightrecval"
        = some "0" ∧
    ((AttributeMapper.applyMultiplier "bopt:highlightrecval" (Float64.finite false (5764607523034235 * 2 ^ 1015))).run exampleRuntime seededPreset
        "Highlights2012" "high").1.Attributes "bopt:highlightrecval" = some "0.000000" ∧
    (∀ d, d ≠ "bopt:highlightrecval" →
      ((AttributeMapper.absInt "bopt:highlightrecval").run exampleRuntime seededPreset "Highlights2012" "high").1.Attributes d
          = seededPreset.Attributes d ∧
      ((AttributeMapper.applyMultiplier "bopt:highlightrecval" (Float64.finite false (5764607523034235 * 2 ^ 1015))).run exampleRuntime seededPreset
          "Highlights2012" "high").1.Attributes d = seededPreset.Attributes d) ∧
    ((AttributeMapper.absInt "bopt:highlightrecval").run exampleRuntime seededPreset "Highlights2012" "high").2
        = [LogEntry.couldNotConvert "high" ParseError.ErrSyntax] ∧
    ((AttributeMapper.applyMultiplier "bopt:highlightrecval" (Float64.finite false (5764607523034235 * 2 ^ 1015))).run exampleRuntime seededPreset
        "Highlights2012" "high").2 = [LogEntry.couldNotConvert "high" ParseError.ErrSyntax] ∧
    (∃ k1 k2 k3, float64Const 1 100 = Float64.finite false k1 ∧
      float64Const 7 10 = Float64.finite false k2 ∧
      float64Const 2 1 = Float64.finite false k3) :=
  ⟨by decide, failed_parse_stores_zero exampleRuntime seededPreset "Highlights2012" "high"
    "bopt:highlightrecval" (5764607523034235 * 2 ^ 1015) (by decide)⟩

/-! ## The float64 model: bit length and exact values -/

theorem size_div_two_pow (n k : Nat) (h : 2 ^ k ≤ n) : Nat.size (n / 2 ^ k) + k = Nat.size n := by
  have hpos : 0 < 2 ^ k := Nat.two_pow_pos k
  have hk : k < Nat.size n := Nat.lt_size.2 h
  apply Nat.le_antisymm
  · have h1 : Nat.size (n / 2 ^ k) ≤ Nat.size n - k := by
      rw [Nat.size_le, Nat.div_lt_iff_lt_mul hpos, ← Nat.pow_add, Nat.sub_add_cancel hk.le]
      exact Nat.lt_size_self n
    omega
  · rw [Nat.size_le, Nat.pow_add, ← Nat.div_lt_iff_lt_mul hpos]
    exact Nat.lt_size_self _

theorem bitLengthAux_eq (fuel n acc : Nat) (h : n ≤ fuel) :
    bitLengthAux fuel n acc = acc + Nat.size n := by
  induction fuel generalizing n acc with
  | zero =>
    have : n = 0 := by omega
    simp [bitLengthAux, this]
  | succ fuel ih =>
    unfold bitLengthAux
    split
    · rename_i h0
      simp [h0]
    · rename_i h0
      split
      · rename_i h64
        have hlt : n / 2 ^ 64 < n := Nat.div_lt_self (by omega) (by norm_num)
        have hle : n / 2 ^ 64 ≤ fuel := Nat.le_of_lt_succ (Nat.lt_of_lt_of_le hlt h)
        rw [ih _ _ hle, ← size_div_two_pow n 64 h64]
        ac_rfl
      · have hlt : n / 2 < n := Nat.div_lt_self (by omega) (by norm_num)
        have hsize : Nat.size (n / 2) + 1 = Nat.size n := by
          by_cases h1 : n = 1
          · subst h1
            have e1 : Nat.size 1 = 1 := @Nat.size_pow 0
            have e0 : (1 : Nat) / 2 = 0 := rfl
            rw [e0, e1, Nat.size_zero]
          · have := size_div_two_pow n 1 (by simp only [Nat.pow_one]; omega)
            rwa [Nat.pow_one] at this
        rw [ih _ _ (by omega), ← hsize]
        ac_rfl

/-- The model's `bitLength` is the number of binary digits: 0 for 0, and otherwise the `b`
with 2^(b-1) ≤ n < 2^b. -/
theorem bitLength_eq_size (n : Nat) : bitLength n = Nat.size n := by
  unfold bitLength
  rw [bitLengthAux_eq n n 0 (Nat.le_refl n), Nat.zero_add]

theorem size_mul_two_pow (N k : Nat) (hN : 0 < N) :
    Nat.size (N * 2 ^ k) = Nat.size N + k := by
  have h := size_div_two_pow (N * 2 ^ k) k (Nat.le_mul_of_pos_left _ hN)
  rw [Nat.mul_div_cancel _ (Nat.two_pow_pos k)] at h
  exact h.symm

theorem roundHalfEven_exact (q b : Nat) (hb : 0 < b) : roundHalfEven (q * b) b = q := by
  unfold roundHalfEven
  simp only [Nat.mul_div_cancel _ hb, Nat.mul_mod_left]
  rw [if_pos (by omega)]

/-- A natural number below 2^53 is a float64 value: rounding leaves it as it is. -/
theorem roundToFloat64_nat (N : Nat) (h : N < 2 ^ 53) :
    roundToFloat64 N 1 = some (N * 2 ^ 1074) := by
  rcases Nat.eq_zero_or_pos N with rfl | hN
  · rw [roundToFloat64_zero, Nat.zero_mul]
  · have hs : Nat.size N ≤ 53 := Nat.size_le.2 h
    obtain ⟨s, hsdef⟩ : ∃ s, s = Nat.size N + 1074 - 53 := ⟨_, rfl⟩
    have hs2 : s ≤ 1074 := by omega
    have hsplit : N * 2 ^ 1074 = (N * 2 ^ (1074 - s)) * 2 ^ s := by
      rw [Nat.mul_assoc, ← Nat.pow_add, Nat.sub_add_cancel hs2]
    have hlt : N * 2 ^ 1074 < 2 ^ 2098 :=
      calc N * 2 ^ 1074 < 2 ^ 53 * 2 ^ 1074 :=
            Nat.mul_lt_mul_of_pos_right h (Nat.two_pow_pos _)
        _ = 2 ^ (53 + 1074) := (Nat.pow_add 2 53 1074).symm
        _ ≤ 2 ^ 2098 := Nat.pow_le_pow_right (by norm_num) (by norm_num)
    unfold roundToFloat64
    simp only [Nat.div_one, bitLength_eq_size, size_mul_two_pow N 1074 hN, ← hsdef, Nat.one_mul]
    rw [hsplit, roundHalfEven_exact _ _ (Nat.two_pow_pos s), ← hsplit, if_pos hlt]

theorem parsePlainDecimal_digits (ds : List Char) (hne : ds ≠ [])
    (hd : ∀ c ∈ ds, c.isDigit = true) :
    parsePlainDecimal (String.mk ds) = some (false, ds, []) ∧
    parsePlainDecimal (String.mk ('-' :: ds)) = some (true, ds, []) := by
  have ht : ds.takeWhile Char.isDigit = ds := List.takeWhile_eq_self_iff.2 hd
  have hdr : ds.dropWhile Char.isDigit = [] := List.dropWhile_eq_nil_iff.2 hd
  constructor
  · obtain ⟨c, cs, rfl⟩ := List.exists_cons_of_ne_nil hne
    have hc := hd c (List.mem_cons_self _ _)
    have hplus : c ≠ '+' := by rintro rfl; revert hc; decide
    have hminus : c ≠ '-' := by rintro rfl; revert hc; decide
    have hsign : splitSign (c :: cs) = (false, c :: cs) := by
      unfold splitSign
      split
      · rename_i h; injection h with h1; exact absurd h1 hplus
      · rename_i h; injection h with h1; exact absurd h1 hminus
      · rfl
    unfold parsePlainDecimal
    simp [hsign, ht, hdr]
  · have hsign : splitSign ('-' :: ds) = (true, ds) := rfl
    unfold parsePlainDecimal
    simp [hsign, ht, hdr, hne]

theorem toDigitsCore_ne_nil (f n : Nat) (ds : List Char) (h : ds ≠ [] ∨ 0 < f) :
    Nat.toDigitsCore 10 f n ds ≠ [] := by
  induction f generalizing n ds with
  | zero =>
    rcases h with h | h
    · exact h
    · omega
  | succ f ih =>
    simp only [Nat.toDigitsCore]
    split
    · simp
    · exact ih _ _ (Or.inl (by simp))

theorem toDigits_ne_nil (n : Nat) : Nat.toDigits 10 n ≠ [] :=
  toDigitsCore_ne_nil _ _ _ (Or.inr (Nat.succ_pos n))

theorem Itoa_data (v : Int) :
    (Itoa v).data = if v < 0 then '-' :: Nat.toDigits 10 v.natAbs else Nat.toDigits 10 v.natAbs := by
  cases v with
  | ofNat n =>
    have : ¬ (Int.ofNat n < 0) := by simp
    rw [if_neg this]
    rfl
  | negSucc n =>
    have : Int.negSucc n < 0 := Int.negSucc_lt_zero n
    rw [if_pos this]
    rfl

/-- An integer of magnitude below 2^53, written in base 10, is parsed to itself. -/
theorem parseFloat_int (rt : GoRuntime) (v : Int) (h : v.natAbs < 2 ^ 53) :
    ParseFloat rt (Itoa v) = (Float64.finite (decide (v < 0)) (v.natAbs * 2 ^ 1074), none) := by
  have hp := parsePlainDecimal_digits (Nat.toDigits 10 v.natAbs) (toDigits_ne_nil _)
    (toDigits_isDigit _)
  have hs : Itoa v = String.mk (Itoa v).data := rfl
  have hval : digitsValue (Nat.toDigits 10 v.natAbs ++ []) = v.natAbs := by
    rw [List.append_nil]
    exact toDigits_value _
  have hone : 10 ^ ([] : List Char).length = 1 := rfl
  unfold ParseFloat
  rw [hs, Itoa_data]
  by_cases hv : v < 0
  · simp only [hv, if_true, hp.2, hval, hone, roundToFloat64_nat _ h, decide_True]
  · simp only [hv, if_false, hp.1, hval, hone, roundToFloat64_nat _ h, decide_False]

/-! ### `Highlights2012` -/

theorem highlights_only_source :
    ∀ e ∈ attributeMappers,
      e.2.destination? = some "bopt:highlightrecval" → e.1 = "Highlights2012" := by
  decide

theorem itoa_natCast_digits (n : Nat) : ∀ c ∈ (Itoa (n : Int)).data, c.isDigit = true := by
  intro c hc
  exact toDigits_isDigit n c hc

/-- C10 at an explicit input: `Highlights2012 = "9007199254740993"` is the integer 2^53 + 1,
within the range of `int`, and the result holds `"9007199254740992"`, not the rendering of
the value written: the parsed float64 is the nearest one, 2^53. -/
theorem highlights_rounded_by_float64 :
    parsePlainDecimal "9007199254740993" = some (false, "9007199254740993".data, []) ∧
    digitsValue "9007199254740993".data = 9007199254740993 ∧
    (9007199254740993 : Int) < 2 ^ 63 ∧
    (NewAftershotPresetFromLightroom exampleRuntime
        (highlightsPreset "9007199254740993")).1.Attributes "bopt:highlightrecval"
      = some "9007199254740992" ∧
    Itoa 9007199254740993 ≠ "9007199254740992" := by
  refine ⟨by decide, by decide, by decide, by decide, by decide⟩

/-- C10 as amended: when the source holds `Highlights2012` (every key once) with a non-empty
value that `strconv.ParseFloat` turns without error into the finite float64 `f` with
floor(|f|) < 2^63, the result's `bopt:highlightrecval` is the base-10 rendering of
floor(|f|), digits only (|f| is `mag / 2^1074`); `f` is the float64 nearest to the number
written, and for a value written as an integer `v` with |v| < 2^53 the field is the
rendering of |v|, so `"-40"` gives `"40"`. -/
theorem highlightrecval_floor_abs (rt : GoRuntime) (lightroom : LightroomPreset)
    (value : String) (hkeys : (lightroom.Attributes.map Prod.fst).Nodup)
    (hmem : ("Highlights2012", value) ∈ lightroom.Attributes) (hne : value ≠ "") :
    (∀ (neg : Bool) (mag : Nat), ParseFloat rt value = (Float64.finite neg mag, none) →
      mag / 2 ^ 1074 < 2 ^ 63 →
      (NewAftershotPresetFromLightroom rt lightroom).1.Attributes "bopt:highlightrecval"
          = some (Itoa ((mag / 2 ^ 1074 : Nat) : Int)) ∧
      ∀ c ∈ (Itoa ((mag / 2 ^ 1074 : Nat) : Int)).data, c.isDigit = true) ∧
    (∀ v : Int, value = Itoa v → v.natAbs < 2 ^ 53 →
      (NewAftershotPresetFromLightroom rt lightroom).1.Attributes "bopt:highlightrecval"
          = some (Itoa (v.natAbs : Int))) := by
  have key : ∀ (neg : Bool) (mag : Nat), ParseFloat rt value = (Float64.finite neg mag, none) →
      mag / 2 ^ 1074 < 2 ^ 63 →
      (NewAftershotPresetFromLightroom rt lightroom).1.Attributes "bopt:highlightrecval"
          = some (Itoa ((mag / 2 ^ 1074 : Nat) : Int)) := by
    intro neg mag hparse hrange
    unfold NewAftershotPresetFromLightroom
    rw [passes_frame _ _ _ (by decide),
      foldl_mapStep_written rt lightroom.Attributes _ "Highlights2012" value
        "bopt:highlightrecval" (AttributeMapper.absInt "bopt:highlightrecval") hkeys hmem hne
        (by decide) (fun k' m' hm' hd => highlights_only_source (k', m') hm' hd)]
    simp only [AttributeMapper.run, hparse, setAttr, if_true, Float64.abs, floatToInt, hrange]
  refine ⟨fun neg mag hparse hrange => ⟨key neg mag hparse hrange, itoa_natCast_digits _⟩, ?_⟩
  intro v hv hlt
  have hdiv : v.natAbs * 2 ^ 1074 / 2 ^ 1074 = v.natAbs :=
    Nat.mul_div_cancel _ (Nat.two_pow_pos _)
  have h63 : v.natAbs < 2 ^ 63 :=
    Nat.lt_of_lt_of_le hlt (Nat.pow_le_pow_right (by norm_num) (by norm_num))
  have := key (decide (v < 0)) (v.natAbs * 2 ^ 1074) (hv ▸ parseFloat_int rt v hlt)
    (by rw [hdiv]; exact h63)
  rw [hdiv] at this
  exact this

/-- Instance of C10 as amended: `Highlights2012 = "-40"` gives `"40"`. -/
theorem highlightrecval_floor_abs_witness :
    ((highlightsPreset "-40").Attributes.map Prod.fst).Nodup ∧
    ("Highlights2012", "-40") ∈ (highlightsPreset "-40").Attributes ∧ "-40" ≠ "" ∧
    "-40" = Itoa (-40) ∧ (-40 : Int).natAbs < 2 ^ 53 ∧ Itoa ((-40 : Int).natAbs : Int) = "40" ∧
    (∀ (neg : Bool) (mag : Nat), ParseFloat exampleRuntime "-40" = (Float64.finite neg mag, none) →
      mag / 2 ^ 1074 < 2 ^ 63 →
      (NewAftershotPresetFromLightroom exampleRuntime (highlightsPreset "-40")).1.Attributes "bopt:highlightrecval"
          = some (Itoa ((mag / 2 ^ 1074 : Nat) : Int)) ∧
      ∀ c ∈ (Itoa ((mag / 2 ^ 1074 : Nat) : Int)).data, c.isDigit = true) ∧
    (∀ v : Int, "-40" = Itoa v → v.natAbs < 2 ^ 53 →
      (NewAftershotPresetFromLightroom exampleRuntime (highlightsPreset "-40")).1.Attributes "bopt:highlightrecval"
          = some (Itoa (v.natAbs : Int))) :=
  ⟨by decide, by decide, by decide, by decide, by decide, by decide,
    highlightrecval_floor_abs exampleRuntime (highlightsPreset "-40") "-40"
      (by decide) (by decide) (by decide)⟩

/-! ## The mapper table -/

/-- No two entries of the table have the same destination field. -/
theorem table_destinations_nodup :
    (attributeMappers.filterMap fun e => e.2.destination?).Nodup := by
  decide

theorem table_destination_unique :
    ∀ e ∈ attributeMappers, ∀ e' ∈ attributeMappers,
      e.2.destination? ≠ none → e.2.destination? = e'.2.destination? → e.1 = e'.1 := by
  decide

/-- The key `key` is the only one the table sends to the destination of its mapper. -/
theorem table_only (key d : String) (m : AttributeMapper) (hm : (key, m) ∈ attributeMappers)
    (hd : m.destination? = some d) :
    ∀ k' m', (k', m') ∈ attributeMappers → m'.destination? = some d → k' = key := by
  intro k' m' hm' hd'
  exact table_destination_unique (k', m') hm' (key, m) hm (by simp [hd']) (by simp [hd, hd'])

theorem attr_of_lookup (lightroom : LightroomPreset) (key value : String)
    (h : lightroom.Attributes.lookup key = some value) : lightroom.attr key = value := by
  simp [LightroomPreset.attr, h]

/-- The field `d` of the result, when the table sends exactly the key `key` to `d`, the
passes do not store to `d`, and the source holds `key` with a non-empty value. -/
theorem result_written (rt : GoRuntime) (lightroom : LightroomPreset) (key value d : String)
    (m : AttributeMapper) (hkeys : (lightroom.Attributes.map Prod.fst).Nodup)
    (hmem : (key, value) ∈ lightroom.Attributes) (hne : value ≠ "")
    (hm : attributeMappers.lookup key = some m) (hd : m.destination? = some d)
    (hpass : d ∉ passDestinations) :
    (NewAftershotPresetFromLightroom rt lightroom).1.Attributes d
      = (m.run rt seededPreset key value).1.Attributes d := by
  unfold NewAftershotPresetFromLightroom
  rw [passes_frame _ _ _ hpass,
    foldl_mapStep_written rt lightroom.Attributes _ key value d m hkeys hmem hne hm
      (table_only key d m (mem_of_lookup _ _ _ hm) hd)]
  cases m <;> simp_all [AttributeMapper.run, AttributeMapper.destination?, setAttr]

/-! ### `Contrast2012` -/

/-- C12: when the source holds `Contrast2012` (every key once) with a non-empty value, the
result's `bopt:scont` is that value, character for character, whatever else the source
holds; `"25"` gives `"25"`. -/
theorem scont_is_contrast (rt : GoRuntime) (lightroom : LightroomPreset) (value : String)
    (hkeys : (lightroom.Attributes.map Prod.fst).Nodup)
    (hmem : ("Contrast2012", value) ∈ lightroom.Attributes) (hne : value ≠ "") :
    (NewAftershotPresetFromLightroom rt lightroom).1.Attributes "bopt:scont" = some value := by
  rw [result_written rt lightroom "Contrast2012" value "bopt:scont"
    (AttributeMapper.copyValueDirectly "bopt:scont") hkeys hmem hne (by decide) rfl (by decide)]
  simp [AttributeMapper.run, setAttr]

/-- Instance of C12: `Contrast2012 = "25"` among other fields. -/
theorem scont_is_contrast_witness :
    ((attributesPreset [("Saturation", "10"), ("Contrast2012", "25"),
        ("ConvertToGrayscale", "True")]).Attributes.map Prod.fst).Nodup ∧
    ("Contrast2012", "25") ∈ (attributesPreset [("Saturation", "10"), ("Contrast2012", "25"),
        ("ConvertToGrayscale", "True")]).Attributes ∧
    "25" ≠ "" ∧
    (NewAftershotPresetFromLightroom exampleRuntime
        (attributesPreset [("Saturation", "10"), ("Contrast2012", "25"),
          ("ConvertToGrayscale", "True")])).1.Attributes "bopt:scont" = some "25" :=
  ⟨by decide, by decide, by decide,
    scont_is_contrast exampleRuntime _ "25" (by decide) (by decide) (by decide)⟩

/-! ### The passes -/

/-- C13: when the source has `ConvertToGrayscale = "True"`, the result's `bopt:sat` is `"0"`,
whatever the source holds for `Saturation` and in whatever order its fields are visited. -/
theorem grayscale_sets_sat_zero (rt : GoRuntime) (lightroom : LightroomPreset)
    (h : lightroom.attr "ConvertToGrayscale" = "True") :
    (NewAftershotPresetFromLightroom rt lightroom).1.Attributes "bopt:sat" = some "0" := by
  unfold NewAftershotPresetFromLightroom
  simp only [postMappingPasses, List.foldl_cons, List.foldl_nil, passStep, grayscalePass,
    texturePass, dehazePass, unsupportedPass, h, if_true]
  split_ifs <;> simp [setAttr]

/-- Instance of C13: `Saturation = "35"` visited before and after `ConvertToGrayscale`. -/
theorem grayscale_sets_sat_zero_witness :
    (attributesPreset [("Saturation", "35"), ("ConvertToGrayscale", "True")]).attr
        "ConvertToGrayscale" = "True" ∧
    (NewAftershotPresetFromLightroom exampleRuntime
      (attributesPreset [("Saturation", "35"), ("ConvertToGrayscale", "True")])).1.Attributes
        "bopt:sat" = some "0" ∧
    (NewAftershotPresetFromLightroom exampleRuntime
      (attributesPreset [("ConvertToGrayscale", "True"), ("Saturation", "35")])).1.Attributes
        "bopt:sat" = some "0" :=
  ⟨by decide, grayscale_sets_sat_zero exampleRuntime _ (by decide),
    grayscale_sets_sat_zero exampleRuntime _ (by decide)⟩

theorem table_spares_always_on :
    ∀ e ∈ attributeMappers, e.2.destination? ≠ some "bopt:curveson" ∧
      e.2.destination? ≠ some "bopt:Equalizer_kb.kbs_enabled" := by
  decide

/-- C17: the result of every conversion holds `bopt:curveson = "true"` and
`bopt:Equalizer_kb.kbs_enabled = "true"`: both are seeded, no entry of the table has either
as its destination, and no pass stores to either. -/
theorem always_on_fields_kept (rt : GoRuntime) (lightroom : LightroomPreset) :
    (NewAftershotPresetFromLightroom rt lightroom).1.Attributes "bopt:curveson"
        = some "true" ∧
    (NewAftershotPresetFromLightroom rt lightroom).1.Attributes "bopt:Equalizer_kb.kbs_enabled"
        = some "true" ∧
    (∀ e ∈ attributeMappers, e.2.destination? ≠ some "bopt:curveson" ∧
      e.2.destination? ≠ some "bopt:Equalizer_kb.kbs_enabled") ∧
    "bopt:curveson" ∉ passDestinations ∧
    "bopt:Equalizer_kb.kbs_enabled" ∉ passDestinations := by
  refine ⟨?_, ?_, table_spares_always_on, by decide, by decide⟩
  · unfold NewAftershotPresetFromLightroom
    rw [passes_frame _ _ _ (by decide), foldl_mapStep_frame _ _ _ _
      (fun e _ m hm => (table_spares_always_on (e.1, m) hm).1)]
    rfl
  · unfold NewAftershotPresetFromLightroom
    rw [passes_frame _ _ _ (by decide), foldl_mapStep_frame _ _ _ _
      (fun e _ m hm => (table_spares_always_on (e.1, m) hm).2)]
    rfl

/-- C18: when the source holds `Texture` with a value `t` other than `"0"`, the result has
the three wavelet-sharpen fields `Usmon = "true"`, `UsmClarity = "true"`,
`UsmRadius = "10"`, and `UsmAmount = t`, the source string as it is. -/
theorem texture_sets_wavelet (rt : GoRuntime) (lightroom : LightroomPreset) (t : String)
    (h : lightroom.Attributes.lookup "Texture" = some t) (hz : t ≠ "0") :
    (NewAftershotPresetFromLightroom rt lightroom).1.Attributes
        "bopt:WaveletSharpen2.bSphWaveletUsmon" = some "true" ∧
    (NewAftershotPresetFromLightroom rt lightroom).1.Attributes
        "bopt:WaveletSharpen2.bSphWaveletUsmClarity" = some "true" ∧
    (NewAftershotPresetFromLightroom rt lightroom).1.Attributes
        "bopt:WaveletSharpen2.bSphWaveletUsmRadius" = some "10" ∧
    (NewAftershotPresetFromLightroom rt lightroom).1.Attributes
        "bopt:WaveletSharpen2.bSphWaveletUsmAmount" = some t := by
  have ha := attr_of_lookup lightroom "Texture" t h
  unfold NewAftershotPresetFromLightroom
  simp only [postMappingPasses, List.foldl_cons, List.foldl_nil, passStep, grayscalePass,
    texturePass, dehazePass, unsupportedPass, ha]
  refine ⟨?_, ?_, ?_, ?_⟩ <;> split_ifs <;> simp [setAttr]

/-- Instance of C18: `Texture = "30"`. -/
theorem texture_sets_wavelet_witness :
    (attributesPreset [("Texture", "30")]).Attributes.lookup "Texture" = some "30" ∧
    "30" ≠ "0" ∧
    (NewAftershotPresetFromLightroom exampleRuntime
        (attributesPreset [("Texture", "30")])).1.Attributes
        "bopt:WaveletSharpen2.bSphWaveletUsmon" = some "true" ∧
    (NewAftershotPresetFromLightroom exampleRuntime
        (attributesPreset [("Texture", "30")])).1.Attributes
        "bopt:WaveletSharpen2.bSphWaveletUsmClarity" = some "true" ∧
    (NewAftershotPresetFromLightroom exampleRuntime
        (attributesPreset [("Texture", "30")])).1.Attributes
        "bopt:WaveletSharpen2.bSphWaveletUsmRadius" = some "10" ∧
    (NewAftershotPresetFromLightroom exampleRuntime
        (attributesPreset [("Texture", "30")])).1.Attributes
        "bopt:WaveletSharpen2.bSphWaveletUsmAmount" = some "30" :=
  ⟨by decide, by decide,
    texture_sets_wavelet exampleRuntime _ "30" (by decide) (by decide)⟩

/-- C19: when the source holds `Dehaze` with a value `d` other than `"0"`, the result has
`bopt:lc_enabled = "true"` and `bopt:lc_strength = d`, the source string as it is. -/
theorem dehaze_sets_local_contrast (rt : GoRuntime) (lightroom : LightroomPreset)
    (d : String) (h : lightroom.Attributes.lookup "Dehaze" = some d) (hz : d ≠ "0") :
    (NewAftershotPresetFromLightroom rt lightroom).1.Attributes "bopt:lc_enabled"
        = some "true" ∧
    (NewAftershotPresetFromLightroom rt lightroom).1.Attributes "bopt:lc_strength"
        = some d := by
  have ha := attr_of_lookup lightroom "Dehaze" d h
  unfold NewAftershotPresetFromLightroom
  simp only [postMappingPasses, List.foldl_cons, List.foldl_nil, passStep, grayscalePass,
    texturePass, dehazePass, unsupportedPass, ha]
  refine ⟨?_, ?_⟩ <;> split_ifs <;> simp [setAttr]

/-- Instance of C19: `Dehaze = "+15"`. -/
theorem dehaze_sets_local_contrast_witness :
    (attributesPreset [("Dehaze", "+15")]).Attributes.lookup "Dehaze" = some "+15" ∧
    "+15" ≠ "0" ∧
    (NewAftershotPresetFromLightroom exampleRuntime
        (attributesPreset [("Dehaze", "+15")])).1.Attributes "bopt:lc_enabled"
        = some "true" ∧
    (NewAftershotPresetFromLightroom exampleRuntime
        (attributesPreset [("Dehaze", "+15")])).1.Attributes "bopt:lc_strength"
        = some "+15" :=
  ⟨by decide, by decide,
    dehaze_sets_local_contrast exampleRuntime _ "+15" (by decide) (by decide)⟩

/-! ## Source fields without effect -/

theorem lookup_append_of_not_mem {β : Type} (k : String) (l r : List (String × β))
    (h : k ∉ l.map Prod.fst) : (l ++ r).lookup k = r.lookup k := by
  induction l with
  | nil => rfl
  | cons e es ih =>
    obtain ⟨k', v'⟩ := e
    simp only [List.map_cons, List.mem_cons, not_or] at h
    have hb : (k == k') = false := by simpa using h.1
    simp only [List.cons_append, List.lookup, hb]
    exact ih h.2

theorem lookup_none_of_not_mem {β : Type} (k : String) (l : List (String × β))
    (h : k ∉ l.map Prod.fst) : l.lookup k = none := by
  have := lookup_append_of_not_mem k l [] h
  simpa using this

theorem lookup_insert_ne {β : Type} (k key : String) (v : β) (l r : List (String × β))
    (h : key ≠ k) : (l ++ (k, v) :: r).lookup key = (l ++ r).lookup key := by
  induction l with
  | nil =>
    have hb : (key == k) = false := by simpa using h
    simp [List.lookup, hb]
  | cons e es ih =>
    obtain ⟨k', v'⟩ := e
    by_cases hk : key = k'
    · subst hk
      simp [List.lookup]
    · have hb : (key == k') = false := by simpa using hk
      simp only [List.cons_append, List.lookup, hb]
      exact ih

/-- The preset after the loop does not depend on the lines logged before it. -/
theorem foldl_mapStep_fst (rt : GoRuntime) (entries : List (String × String))
    (preset : AfterShotPreset) (log log' : List LogEntry) :
    (entries.foldl (mapStep rt) (preset, log)).1
      = (entries.foldl (mapStep rt) (preset, log')).1 := by
  induction entries generalizing preset log log' with
  | nil => rfl
  | cons e es ih =>
    simp only [List.foldl_cons]
    unfold mapStep
    split
    · exact ih _ _ _
    · exact ih _ _ _

/-- The preset after the passes does not depend on the lines logged before them. -/
theorem passes_fst (lightroom : LightroomPreset) (preset : AfterShotPreset)
    (log log' : List LogEntry) :
    (postMappingPasses.foldl (passStep lightroom) (preset, log)).1
      = (postMappingPasses.foldl (passStep lightroom) (preset, log')).1 := by
  simp only [postMappingPasses, List.foldl_cons, List.foldl_nil, passStep]

/-- The passes read the source through the keys of `passSources` only. -/
theorem passes_congr (lightroom lightroom' : LightroomPreset)
    (state : AfterShotPreset × List LogEntry)
    (h : ∀ key ∈ passSources, lightroom.attr key = lightroom'.attr key) :
    postMappingPasses.foldl (passStep lightroom) state
      = postMappingPasses.foldl (passStep lightroom') state := by
  have h1 := h "ConvertToGrayscale" (by decide)
  have h2 := h "Texture" (by decide)
  have h3 := h "Dehaze" (by decide)
  have h4 := h "SplitToningBalance" (by decide)
  have h5 := h "SplitToningShadowSaturation" (by decide)
  have h6 := h "GrainAmount" (by decide)
  have h7 := h "ColorNoiseReduction" (by decide)
  have h8 := h "ParametricShadowSplit" (by decide)
  have h9 := h "ParametricMidtoneSplit" (by decide)
  have h10 := h "ParametricHighlightSplit" (by decide)
  simp only [postMappingPasses, List.foldl_cons, List.foldl_nil, passStep, grayscalePass,
    texturePass, dehazePass, unsupportedPass, h1, h2, h3, h4, h5, h6, h7, h8, h9, h10]

/-- Every key the passes read is a key of the table. -/
theorem passSources_in_table : ∀ key ∈ passSources, attributeMappers.lookup key ≠ none := by
  decide

/-- C15: a source field whose name is not a key of the table (no pass reads such a field)
does not affect the output: the conversion of a source with the field `k = v` at any place
among its entries has the same `Attributes` and the same tone curve as the conversion of the
source without it. -/
theorem unknown_field_no_effect (rt : GoRuntime) (before after : List (String × String))
    (curve : LightroomCombinedToneCurve) (k v : String)
    (hk : attributeMappers.lookup k = none) :
    (NewAftershotPresetFromLightroom rt ⟨before ++ (k, v) :: after, curve⟩).1.Attributes
        = (NewAftershotPresetFromLightroom rt ⟨before ++ after, curve⟩).1.Attributes ∧
    (NewAftershotPresetFromLightroom rt ⟨before ++ (k, v) :: after, curve⟩).1.ToneCurve
        = (NewAftershotPresetFromLightroom rt ⟨before ++ after, curve⟩).1.ToneCurve ∧
    (∀ key ∈ passSources, key ≠ k) := by
  have hsrc : ∀ key ∈ passSources, key ≠ k := by
    intro key hkey hkk
    exact passSources_in_table key hkey (hkk ▸ hk)
  have hattr : ∀ key ∈ passSources,
      (LightroomPreset.mk (before ++ (k, v) :: after) curve).attr key
        = (LightroomPreset.mk (before ++ after) curve).attr key := by
    intro key hkey
    simp only [LightroomPreset.attr, lookup_insert_ne k key v before after (hsrc key hkey)]
  have hstep : ∀ state : AfterShotPreset × List LogEntry,
      (mapStep rt state (k, v)).1 = state.1 := by
    intro state
    unfold mapStep
    split
    · rfl
    · simp [hk, AttributeMapper.run]
  have hpreset : (NewAftershotPresetFromLightroom rt ⟨before ++ (k, v) :: after, curve⟩).1
      = (NewAftershotPresetFromLightroom rt ⟨before ++ after, curve⟩).1 := by
    unfold NewAftershotPresetFromLightroom
    simp only [List.foldl_append, List.foldl_cons]
    rw [passes_congr _ _ _ hattr]
    generalize List.foldl (mapStep rt) _ before = st
    have e1 : mapStep rt st (k, v) = ((mapStep rt st (k, v)).1, (mapStep rt st (k, v)).2) := rfl
    have e2 : st = (st.1, st.2) := rfl
    rw [e1, hstep st]
    conv_rhs => rw [e2]
    generalize (mapStep rt st (k, v)).2 = log1
    have e3 := foldl_mapStep_fst rt after st.1 log1 st.2
    generalize List.foldl (mapStep rt) (st.1, log1) after = s1 at e3 ⊢
    generalize List.foldl (mapStep rt) (st.1, st.2) after = s2 at e3 ⊢
    have f1 : s1 = (s1.1, s1.2) := rfl
    have f2 : s2 = (s2.1, s2.2) := rfl
    rw [f1, f2, e3]
    exact passes_fst _ _ _ _
  exact ⟨congrArg AfterShotPreset.Attributes hpreset,
    congrArg AfterShotPreset.ToneCurve hpreset, hsrc⟩

/-- Instance of C15: `SomeFutureLightroomField = "5"` between two known fields. -/
theorem unknown_field_no_effect_witness :
    attributeMappers.lookup "SomeFutureLightroomField" = none ∧
    (NewAftershotPresetFromLightroom exampleRuntime
        ⟨[("Contrast2012", "25")] ++ ("SomeFutureLightroomField", "5")
          :: [("Texture", "0")], noCurve⟩).1.Attributes
      = (NewAftershotPresetFromLightroom exampleRuntime
        ⟨[("Contrast2012", "25")] ++ [("Texture", "0")], noCurve⟩).1.Attributes ∧
    (NewAftershotPresetFromLightroom exampleRuntime
        ⟨[("Contrast2012", "25")] ++ ("SomeFutureLightroomField", "5")
          :: [("Texture", "0")], noCurve⟩).1.ToneCurve
      = (NewAftershotPresetFromLightroom exampleRuntime
        ⟨[("Contrast2012", "25")] ++ [("Texture", "0")], noCurve⟩).1.ToneCurve ∧
    (∀ key ∈ passSources, key ≠ "SomeFutureLightroomField") :=
  ⟨by decide, unknown_field_no_effect exampleRuntime [("Contrast2012", "25")]
    [("Texture", "0")] noCurve "SomeFutureLightroomField" "5" (by decide)⟩

/-- C16: a source field with the empty string as its value is skipped: the loop step for
`(k, "")` returns the preset and the log as they are, for every `k`, and the conversion of a
source holding `k = ""` (preset and lines logged) is the conversion of the source with `k`
removed. -/
theorem empty_value_skipped (rt : GoRuntime) (before after : List (String × String))
    (curve : LightroomCombinedToneCurve) (k : String)
    (hk : k ∉ (before ++ after).map Prod.fst) :
    (∀ state : AfterShotPreset × List LogEntry, mapStep rt state (k, "") = state) ∧
    NewAftershotPresetFromLightroom rt ⟨before ++ (k, "") :: after, curve⟩
      = NewAftershotPresetFromLightroom rt ⟨before ++ after, curve⟩ := by
  have hstep : ∀ state : AfterShotPreset × List LogEntry, mapStep rt state (k, "") = state := by
    intro state
    simp [mapStep]
  have hattr : ∀ key ∈ passSources,
      (LightroomPreset.mk (before ++ (k, "") :: after) curve).attr key
        = (LightroomPreset.mk (before ++ after) curve).attr key := by
    intro key _
    by_cases hkk : key = k
    · subst hkk
      have hb : key ∉ before.map Prod.fst := by
        intro hmem
        exact hk (by simp only [List.map_append, List.mem_append]; exact Or.inl hmem)
      simp only [LightroomPreset.attr, lookup_none_of_not_mem key _ hk,
        lookup_append_of_not_mem key before _ hb]
      simp [List.lookup]
    · simp only [LightroomPreset.attr, lookup_insert_ne k key "" before after hkk]
  refine ⟨hstep, ?_⟩
  unfold NewAftershotPresetFromLightroom
  simp only [List.foldl_append, List.foldl_cons, hstep]
  exact passes_congr _ _ _ hattr

/-- Instance of C16: `Texture = ""` in a source that holds `Saturation` and `Dehaze`. -/
theorem empty_value_skipped_witness :
    "Texture" ∉ ([("Saturation", "10")] ++ [("Dehaze", "0")]).map Prod.fst ∧
    (∀ state : AfterShotPreset × List LogEntry,
      mapStep exampleRuntime state ("Texture", "") = state) ∧
    NewAftershotPresetFromLightroom exampleRuntime
        ⟨[("Saturation", "10")] ++ ("Texture", "") :: [("Dehaze", "0")], noCurve⟩
      = NewAftershotPresetFromLightroom exampleRuntime
        ⟨[("Saturation", "10")] ++ [("Dehaze", "0")], noCurve⟩ :=
  ⟨by decide, empty_value_skipped exampleRuntime [("Saturation", "10")] [("Dehaze", "0")]
    noCurve "Texture" (by decide)⟩

/-! ## Order of the loop over the source -/

theorem table_keys_nodup : (attributeMappers.map Prod.fst).Nodup := by
  decide

theorem mapStep_frame_of_empty (rt : GoRuntime) (state : AfterShotPreset × List LogEntry)
    (entry : String × String) (d : String)
    (h : entry.2 = "" ∨ ∀ m, (entry.1, m) ∈ attributeMappers → m.destination? ≠ some d) :
    (mapStep rt state entry).1.Attributes d = state.1.Attributes d := by
  rcases h with h | h
  · simp [mapStep, h]
  · exact mapStep_frame rt state entry d h

theorem foldl_mapStep_frame_of_empty (rt : GoRuntime) (entries : List (String × String))
    (state : AfterShotPreset × List LogEntry) (d : String)
    (h : ∀ e ∈ entries,
      e.2 = "" ∨ ∀ m, (e.1, m) ∈ attributeMappers → m.destination? ≠ some d) :
    (entries.foldl (mapStep rt) state).1.Attributes d = state.1.Attributes d := by
  induction entries generalizing state with
  | nil => rfl
  | cons e es ih =>
    rw [List.foldl_cons, ih _ (fun e' he' => h e' (List.mem_cons_of_mem _ he')),
      mapStep_frame_of_empty rt state e d (h e (List.mem_cons_self _ _))]

/-- C14: the attribute map after the loop over the source does not depend on the order in
which the entries of the source (every key once) are visited, and neither does the tone
curve; no two entries of the table have the same destination field. -/
theorem map_phase_order_independent (rt : GoRuntime) (entries entries' : List (String × String))
    (state : AfterShotPreset × List LogEntry) (hperm : entries.Perm entries')
    (hkeys : (entries.map Prod.fst).Nodup) :
    (entries.foldl (mapStep rt) state).1.Attributes
        = (entries'.foldl (mapStep rt) state).1.Attributes ∧
    (entries.foldl (mapStep rt) state).1.ToneCurve
        = (entries'.foldl (mapStep rt) state).1.ToneCurve ∧
    (attributeMappers.filterMap fun e => e.2.destination?).Nodup := by
  have hkeys' : (entries'.map Prod.fst).Nodup := (hperm.map Prod.fst).nodup_iff.1 hkeys
  refine ⟨?_, ?_, table_destinations_nodup⟩
  · funext d
    by_cases hex : ∃ e ∈ entries, e.2 ≠ "" ∧
        ∃ m, attributeMappers.lookup e.1 = some m ∧ m.destination? = some d
    · obtain ⟨⟨k, v⟩, he, hne, m, hm, hd⟩ := hex
      have honly := table_only k d m (mem_of_lookup _ _ _ hm) hd
      rw [foldl_mapStep_written rt entries state k v d m hkeys he hne hm honly,
        foldl_mapStep_written rt entries' state k v d m hkeys' (hperm.mem_iff.1 he) hne hm
          honly]
    · have hfree : ∀ e ∈ entries,
          e.2 = "" ∨ ∀ m, (e.1, m) ∈ attributeMappers → m.destination? ≠ some d := by
        intro e he
        by_cases hv : e.2 = ""
        · exact Or.inl hv
        · refine Or.inr (fun m hm hd => hex ⟨e, he, hv, m, ?_, hd⟩)
          exact lookup_of_mem_nodup _ _ _ table_keys_nodup hm
      rw [foldl_mapStep_frame_of_empty rt entries state d hfree,
        foldl_mapStep_frame_of_empty rt entries' state d
          (fun e he => hfree e (hperm.mem_iff.2 he))]
  · rw [foldl_mapStep_toneCurve, foldl_mapStep_toneCurve]

/-- Instance of C14: three fields in two orders, from the seeded preset. -/
theorem map_phase_order_independent_witness :
    [("Contrast2012", "25"), ("Highlights2012", "-40"), ("Saturation", "")].Perm
      [("Saturation", ""), ("Highlights2012", "-40"), ("Contrast2012", "25")] ∧
    ([("Contrast2012", "25"), ("Highlights2012", "-40"), ("Saturation", "")].map
      Prod.fst).Nodup ∧
    ([("Contrast2012", "25"), ("Highlights2012", "-40"), ("Saturation", "")].foldl
        (mapStep exampleRuntime) (seededPreset, [])).1.Attributes
      = ([("Saturation", ""), ("Highlights2012", "-40"), ("Contrast2012", "25")].foldl
        (mapStep exampleRuntime) (seededPreset, [])).1.Attributes ∧
    ([("Contrast2012", "25"), ("Highlights2012", "-40"), ("Saturation", "")].foldl
        (mapStep exampleRuntime) (seededPreset, [])).1.ToneCurve
      = ([("Saturation", ""), ("Highlights2012", "-40"), ("Contrast2012", "25")].foldl
        (mapStep exampleRuntime) (seededPreset, [])).1.ToneCurve ∧
    (attributeMappers.filterMap fun e => e.2.destination?).Nodup :=
  ⟨by decide, by decide,
    map_phase_order_independent exampleRuntime _ _ (seededPreset, []) (by decide) (by decide)⟩

/-! ## The XML attributes of the tone curve -/

/-- C20: for a combined curve whose channels each have at most 20 points, `ToXmlAttributes`
returns exactly the 8 attributes `bopt:curves_m_cn`, `cx`, `cy`, `olo`, `ohi`, `ilo`,
`imid`, `ihi` in this order: the combined point count, the In and Out serializations at
capacity 20, `4,1,0,0,0,0` for `olo` and `ilo`, `4,1,1,1,1,1` for `imid` and
`4,1,65535,65535,65535,65535` for `ohi` and `ihi`, where 65535 is the constant that fills
slot 1 of the default curve and is 257 * 255. -/
theorem toXmlAttributes_spec (c : AfterShotCombinedToneCurve)
    (hRgb : c.Rgb.Points.length ≤ 20) (hRed : c.Red.Points.length ≤ 20)
    (hGreen : c.Green.Points.length ≤ 20) (hBlue : c.Blue.Points.length ≤ 20) :
    ∃ cx cy : String,
      c.SerializePointsIn 20 = some cx ∧ c.SerializePointsOut 20 = some cy ∧
      c.ToXmlAttributes.1 = some [
        ⟨"bopt:curves_m_cn", c.SerializeNumberOfPoints⟩,
        ⟨"bopt:curves_m_cx", cx⟩,
        ⟨"bopt:curves_m_cy", cy⟩,
        ⟨"bopt:curves_m_olo", "4,1,0,0,0,0"⟩,
        ⟨"bopt:curves_m_ohi", "4,1,65535,65535,65535,65535"⟩,
        ⟨"bopt:curves_m_ilo", "4,1,0,0,0,0"⟩,
        ⟨"bopt:curves_m_imid", "4,1,1,1,1,1"⟩,
        ⟨"bopt:curves_m_ihi", "4,1,65535,65535,65535,65535"⟩] ∧
      AFTERSHOT_NUM_POINTS = 20 ∧
      Itoa AFTERSHOT_CURVE_MAX = "65535" ∧
      serializePoints [] 2 = some "0,65535" ∧
      AFTERSHOT_CURVE_MAX = 257 * 255 ∧
      AFTERSHOT_CURVE_MAX / LIGHTROOM_CURVE_MAX * LIGHTROOM_CURVE_MAX = AFTERSHOT_CURVE_MAX := by
  have key : ∀ f : AfterShotToneCurvePoint → Int, _ := fun f =>
    combined_serialize 20 (by decide) (c.Rgb.Points.map f) (c.Red.Points.map f)
      (c.Green.Points.map f) (c.Blue.Points.map f) (by simpa using hRgb) (by simpa using hRed)
      (by simpa using hGreen) (by simpa using hBlue)
  obtain ⟨rgb, red, green, blue, cx, h1, h2, h3, h4, hcx, -⟩ := key fun p => p.In
  obtain ⟨rgb', red', green', blue', cy, g1, g2, g3, g4, hcy, -⟩ := key fun p => p.Out
  have ex : c.SerializePointsIn 20 = some cx := by
    simp only [AfterShotCombinedToneCurve.SerializePointsIn,
      AfterShotToneCurveChannel.SerializePointsIn]
    erw [h1, h2, h3, h4]
    rw [hcx]
    rfl
  have ey : c.SerializePointsOut 20 = some cy := by
    simp only [AfterShotCombinedToneCurve.SerializePointsOut,
      AfterShotToneCurveChannel.SerializePointsOut]
    erw [g1, g2, g3, g4]
    rw [hcy]
    rfl
  refine ⟨cx, cy, ex, ey, ?_, rfl, by decide, by decide, by decide, by decide⟩
  have en : AFTERSHOT_NUM_POINTS = 20 := rfl
  simp only [AfterShotCombinedToneCurve.ToXmlAttributes, en, ex, ey]
  rfl

/-- Instance of C20: the curve `combined3`. -/
theorem toXmlAttributes_spec_witness :
    combined3.Rgb.Points.length ≤ 20 ∧ combined3.Red.Points.length ≤ 20 ∧
    combined3.Green.Points.length ≤ 20 ∧ combined3.Blue.Points.length ≤ 20 ∧
    ∃ cx cy : String,
      combined3.SerializePointsIn 20 = some cx ∧ combined3.SerializePointsOut 20 = some cy ∧
      combined3.ToXmlAttributes.1 = some [
        ⟨"bopt:curves_m_cn", combined3.SerializeNumberOfPoints⟩,
        ⟨"bopt:curves_m_cx", cx⟩,
        ⟨"bopt:curves_m_cy", cy⟩,
        ⟨"bopt:curves_m_olo", "4,1,0,0,0,0"⟩,
        ⟨"bopt:curves_m_ohi", "4,1,65535,65535,65535,65535"⟩,
        ⟨"bopt:curves_m_ilo", "4,1,0,0,0,0"⟩,
        ⟨"bopt:curves_m_imid", "4,1,1,1,1,1"⟩,
        ⟨"bopt:curves_m_ihi", "4,1,65535,65535,65535,65535"⟩] ∧
      AFTERSHOT_NUM_POINTS = 20 ∧
      Itoa AFTERSHOT_CURVE_MAX = "65535" ∧
      serializePoints [] 2 = some "0,65535" ∧
      AFTERSHOT_CURVE_MAX = 257 * 255 ∧
      AFTERSHOT_CURVE_MAX / LIGHTROOM_CURVE_MAX * LIGHTROOM_CURVE_MAX = AFTERSHOT_CURVE_MAX :=
  ⟨by decide, by decide, by decide, by decide,
    toXmlAttributes_spec combined3 (by decide) (by decide) (by decide) (by decide)⟩

/-! ## `Shadows2012`: the product and its rendering -/

theorem roundHalfEven_le (a b : Nat) : roundHalfEven a b ≤ a / b + 1 := by
  unfold roundHalfEven
  simp only []
  split_ifs <;> omega

/-- Rounding does not overflow when the value is below 2^1023. -/
theorem roundToFloat64_isSome (p q : Nat) (h : p * 2 ^ 1074 / q < 2 ^ 2097) :
    ∃ m, roundToFloat64 p q = some m := by
  obtain ⟨t, ht⟩ : ∃ t, t = p * 2 ^ 1074 / q := ⟨_, rfl⟩
  obtain ⟨s, hs⟩ : ∃ s, s = Nat.size t - 53 := ⟨_, rfl⟩
  have hsize : Nat.size t ≤ 2097 := Nat.size_le.2 (ht ▸ h)
  have hs1 : Nat.size t ≤ s + 53 := by omega
  have hs2 : s + 53 ≤ 2097 := by omega
  have hpos : 0 < 2 ^ s := Nat.two_pow_pos s
  have ht53 : t / 2 ^ s < 2 ^ 53 := by
    rw [Nat.div_lt_iff_lt_mul hpos, ← Nat.pow_add, Nat.add_comm]
    exact Nat.lt_of_lt_of_le (Nat.lt_size_self t) (Nat.pow_le_pow_right (by norm_num) hs1)
  have hr : roundHalfEven (p * 2 ^ 1074) (q * 2 ^ s) ≤ 2 ^ 53 := by
    have := roundHalfEven_le (p * 2 ^ 1074) (q * 2 ^ s)
    rw [← Nat.div_div_eq_div_mul, ← ht] at this
    omega
  have hm : roundHalfEven (p * 2 ^ 1074) (q * 2 ^ s) * 2 ^ s < 2 ^ 2098 :=
    calc roundHalfEven (p * 2 ^ 1074) (q * 2 ^ s) * 2 ^ s
        ≤ 2 ^ 53 * 2 ^ s := Nat.mul_le_mul_right _ hr
      _ = 2 ^ (53 + s) := (Nat.pow_add 2 53 s).symm
      _ ≤ 2 ^ 2097 := Nat.pow_le_pow_right (by norm_num) (by omega)
      _ < 2 ^ 2098 := Nat.pow_lt_pow_right (by norm_num) (by norm_num)
  refine ⟨roundHalfEven (p * 2 ^ 1074) (q * 2 ^ s) * 2 ^ s, ?_⟩
  unfold roundToFloat64
  simp only [bitLength_eq_size, ← ht, ← hs]
  exact if_pos hm


theorem hundredth_const :
    float64Const 1 100 = Float64.finite false (5764607523034235 * 2 ^ 1015) := by
  decide

/-- A finite float64 times 0.01 is finite, with the sign kept. -/
theorem mul_hundredth_finite (neg : Bool) (mag : Nat) (h : mag < 2 ^ 2098) :
    ∃ r, (Float64.finite neg mag).mul (float64Const 1 100) = Float64.finite neg r := by
  rw [hundredth_const]
  have hk : 5764607523034235 * 2 ^ 1015 < 2 ^ 1068 :=
    calc 5764607523034235 * 2 ^ 1015 < 2 ^ 53 * 2 ^ 1015 :=
          Nat.mul_lt_mul_of_pos_right (by norm_num) (Nat.two_pow_pos _)
      _ = 2 ^ (53 + 1015) := (Nat.pow_add 2 53 1015).symm
  have hprod : mag * (5764607523034235 * 2 ^ 1015) * 2 ^ 1074 / 2 ^ 2148 < 2 ^ 2097 := by
    rw [Nat.div_lt_iff_lt_mul (Nat.two_pow_pos _), ← Nat.pow_add]
    calc mag * (5764607523034235 * 2 ^ 1015) * 2 ^ 1074
        < 2 ^ 2098 * 2 ^ 1068 * 2 ^ 1074 :=
          Nat.mul_lt_mul_of_pos_right (Nat.mul_lt_mul'' h hk) (Nat.two_pow_pos _)
      _ = 2 ^ (2098 + 1068 + 1074) :=
          ((Nat.pow_add 2 (2098 + 1068) 1074).trans
            (congrArg (fun x => x * 2 ^ 1074) (Nat.pow_add 2 2098 1068))).symm
      _ ≤ 2 ^ (2097 + 2148) := Nat.pow_le_pow_right (by norm_num) (by norm_num)
  obtain ⟨r, hr⟩ := roundToFloat64_isSome _ _ hprod
  refine ⟨r, ?_⟩
  show (match roundToFloat64 (mag * (5764607523034235 * 2 ^ 1015)) (2 ^ 2148) with
    | some r => Float64.finite (xor neg false) r
    | none => Float64.inf (xor neg false)) = _
  rw [hr]
  simp

/-- The rendering `%f` of a finite float64: an optional `-`, at least one digit, a point and
six digits. -/
theorem formatF_finite (neg : Bool) (m : Nat) :
    ∃ intDigits fracDigits : List Char,
      (Float64.finite neg m).formatF.data
        = (if neg then ['-'] else []) ++ intDigits ++ '.' :: fracDigits ∧
      intDigits ≠ [] ∧ fracDigits.length = 6 ∧
      ∀ c ∈ intDigits ++ fracDigits, c.isDigit = true := by
  obtain ⟨d, hd⟩ : ∃ d, d = roundHalfEven (m * 10 ^ 6) (2 ^ 1074) := ⟨_, rfl⟩
  have hlen : (Nat.toDigits 10 (d % 10 ^ 6)).length ≤ 6 :=
    Nat.repr_length (d % 10 ^ 6) 6 (by norm_num) (Nat.mod_lt _ (by norm_num))
  refine ⟨Nat.toDigits 10 (d / 10 ^ 6),
    List.replicate (6 - (Nat.toDigits 10 (d % 10 ^ 6)).length) '0'
      ++ Nat.toDigits 10 (d % 10 ^ 6), ?_, toDigits_ne_nil _, ?_, ?_⟩
  · have e : (Float64.finite neg m).formatF
        = (if neg then "-" else "") ++ String.mk (Nat.toDigits 10 (d / 10 ^ 6)) ++ "."
            ++ String.mk (List.replicate (6 - (Nat.toDigits 10 (d % 10 ^ 6)).length) '0')
            ++ String.mk (Nat.toDigits 10 (d % 10 ^ 6)) := by
      rw [hd]
      rfl
    rw [e]
    cases neg <;> simp [String.data_append]
  · simp only [List.length_append, List.length_replicate]
    omega
  · intro c hc
    simp only [List.mem_append, List.mem_replicate] at hc
    rcases hc with hc | ⟨-, rfl⟩ | hc
    · exact toDigits_isDigit _ c hc
    · decide
    · exact toDigits_isDigit _ c hc


/-- C11 at an explicit input: `Shadows2012 = "1000000000003"` is a float64 value, its
hundredth is 10000000000.03, and the result holds `"10000000000.030001"`: the product of
the two float64 values is rounded to a float64 before it is rendered. -/
theorem fillamount_not_exact_hundredth :
    ParseFloat exampleRuntime "1000000000003"
      = (Float64.finite false (1000000000003 * 2 ^ 1074), none) ∧
    (1000000000003 : Nat) * 10 ^ 6 = 10000000000030000 * 100 ∧
    (NewAftershotPresetFromLightroom exampleRuntime
        (attributesPreset [("Shadows2012", "1000000000003")])).1.Attributes "bopt:fillamount"
      = some "10000000000.030001" ∧
    "10000000000.030001" ≠ "10000000000.030000" := by
  refine ⟨by decide, by decide, by decide, by decide⟩

/-- C11 as amended: when the source holds `Shadows2012` (every key once) with a non-empty
value that `strconv.ParseFloat` turns without error into the finite float64 `f`, the
result's `bopt:fillamount` is the rendering by `%f` of the float64 product of `f` and the
float64 nearest to 0.01: an optional `-`, the integer digits, a point and exactly six
fractional digits, not an integer; `"50"` gives `"0.500000"`. -/
theorem fillamount_is_scaled (rt : GoRuntime) (lightroom : LightroomPreset) (value : String)
    (hkeys : (lightroom.Attributes.map Prod.fst).Nodup)
    (hmem : ("Shadows2012", value) ∈ lightroom.Attributes) (hne : value ≠ "") :
    (∀ (neg : Bool) (mag : Nat), ParseFloat rt value = (Float64.finite neg mag, none) →
      mag < 2 ^ 2098 →
      ∃ r : Nat, (Float64.finite neg mag).mul (float64Const 1 100) = Float64.finite neg r ∧
        (NewAftershotPresetFromLightroom rt lightroom).1.Attributes "bopt:fillamount"
          = some (Float64.finite neg r).formatF ∧
        ∃ intDigits fracDigits : List Char,
          (Float64.finite neg r).formatF.data
            = (if neg then ['-'] else []) ++ intDigits ++ '.' :: fracDigits ∧
          intDigits ≠ [] ∧ fracDigits.length = 6 ∧
          ∀ c ∈ intDigits ++ fracDigits, c.isDigit = true) := by
  intro neg mag hparse hmag
  obtain ⟨r, hr⟩ := mul_hundredth_finite neg mag hmag
  refine ⟨r, hr, ?_, formatF_finite neg r⟩
  rw [result_written rt lightroom "Shadows2012" value "bopt:fillamount"
    (AttributeMapper.applyMultiplier "bopt:fillamount" (float64Const 1 100)) hkeys hmem hne
    (by decide) rfl (by decide)]
  simp only [AttributeMapper.run, hparse, setAttr, if_true, hr]

/-- Instance of C11 as amended: `Shadows2012 = "50"` gives `"0.500000"`. -/
theorem fillamount_is_scaled_witness :
    ((attributesPreset [("Shadows2012", "50")]).Attributes.map Prod.fst).Nodup ∧
    ("Shadows2012", "50") ∈ (attributesPreset [("Shadows2012", "50")]).Attributes ∧
    "50" ≠ "" ∧
    ParseFloat exampleRuntime "50" = (Float64.finite false (50 * 2 ^ 1074), none) ∧
    50 * 2 ^ 1074 < 2 ^ 2098 ∧
    (Float64.finite false (50 * 2 ^ 1074)).mul (float64Const 1 100)
      = Float64.finite false (2 ^ 1073) ∧
    (Float64.finite false (2 ^ 1073)).formatF = "0.500000" ∧
    (NewAftershotPresetFromLightroom exampleRuntime
        (attributesPreset [("Shadows2012", "50")])).1.Attributes "bopt:fillamount"
      = some "0.500000" ∧
    (∀ (neg : Bool) (mag : Nat), ParseFloat exampleRuntime "50" = (Float64.finite neg mag, none) →
      mag < 2 ^ 2098 →
      ∃ r : Nat, (Float64.finite neg mag).mul (float64Const 1 100) = Float64.finite neg r ∧
        (NewAftershotPresetFromLightroom exampleRuntime (attributesPreset [("Shadows2012", "50")])).1.Attributes "bopt:fillamount"
          = some (Float64.finite neg r).formatF ∧
        ∃ intDigits fracDigits : List Char,
          (Float64.finite neg r).formatF.data
            = (if neg then ['-'] else []) ++ intDigits ++ '.' :: fracDigits ∧
          intDigits ≠ [] ∧ fracDigits.length = 6 ∧
          ∀ c ∈ intDigits ++ fracDigits, c.isDigit = true) :=
  ⟨by decide, by decide, by decide, by decide, by decide, by decide, by decide, by decide,
    fillamount_is_scaled exampleRuntime (attributesPreset [("Shadows2012", "50")]) "50"
      (by decide) (by decide) (by decide)⟩

/-! ## The passes on a source without values -/

/-- C21, the code at failing inputs: converted from a source without attributes, and from
one with `Texture = ""` and `Dehaze = ""`, the result holds the four wavelet-sharpen fields
and the two local-contrast fields, with the empty string as amount and strength: the
passes compare the source value with `"0"` only, and a missing or empty value is not
`"0"`. -/
theorem passes_fire_without_value (rt : GoRuntime) :
    (NewAftershotPresetFromLightroom rt emptyLightroomPreset).1.Attributes
        "bopt:WaveletSharpen2.bSphWaveletUsmon" = some "true" ∧
    (NewAftershotPresetFromLightroom rt emptyLightroomPreset).1.Attributes
        "bopt:WaveletSharpen2.bSphWaveletUsmClarity" = some "true" ∧
    (NewAftershotPresetFromLightroom rt emptyLightroomPreset).1.Attributes
        "bopt:WaveletSharpen2.bSphWaveletUsmRadius" = some "10" ∧
    (NewAftershotPresetFromLightroom rt emptyLightroomPreset).1.Attributes
        "bopt:WaveletSharpen2.bSphWaveletUsmAmount" = some "" ∧
    (NewAftershotPresetFromLightroom rt emptyLightroomPreset).1.Attributes
        "bopt:lc_enabled" = some "true" ∧
    (NewAftershotPresetFromLightroom rt emptyLightroomPreset).1.Attributes
        "bopt:lc_strength" = some "" ∧
    (NewAftershotPresetFromLightroom rt
        (attributesPreset [("Texture", ""), ("Dehaze", "")])).1.Attributes
        "bopt:WaveletSharpen2.bSphWaveletUsmon" = some "true" ∧
    (NewAftershotPresetFromLightroom rt
        (attributesPreset [("Texture", ""), ("Dehaze", "")])).1.Attributes
        "bopt:lc_enabled" = some "true" ∧
    (NewAftershotPresetFromLightroom rt
        (attributesPreset [("Texture", "0"), ("Dehaze", "0")])).1.Attributes
        "bopt:WaveletSharpen2.bSphWaveletUsmon" = none ∧
    (NewAftershotPresetFromLightroom rt
        (attributesPreset [("Texture", "0"), ("Dehaze", "0")])).1.Attributes
        "bopt:lc_enabled" = none :=
  ⟨rfl, rfl, rfl, rfl, rfl, rfl, rfl, rfl, rfl, rfl⟩

/-- C22, the code at failing inputs: the last pass returns the preset as it is, but with
`SplitToningBalance = "+50"` and `SplitToningShadowSaturation = "0"`, the neutral values, it
logs the split-toning warning, and with a shadow saturation of `"5"` it does not: the
second test is `== "0"`. -/
theorem split_toning_warning_inverted (preset : AfterShotPreset) :
    (unsupportedPass neutralPreset preset).1 = preset ∧
    neutralPreset.attr "SplitToningBalance" = "+50" ∧
    neutralPreset.attr "SplitToningShadowSaturation" = "0" ∧
    (unsupportedPass neutralPreset preset).2 = [LogEntry.splitToning, LogEntry.purpleInfo] ∧
    splitTonedPreset.attr "SplitToningBalance" = "+50" ∧
    splitTonedPreset.attr "SplitToningShadowSaturation" = "5" ∧
    (unsupportedPass splitTonedPreset preset).2 = [LogEntry.purpleInfo] :=
  ⟨rfl, by decide, by decide, rfl, by decide, by decide, rfl⟩

/-! ## The transforms without a destination -/

/-- C23: the transform `todo`, which is also what the loop uses for a field that is not a key
of the table, returns the preset unchanged and logs one warning with the field name and the
value exactly when the value is neither `""` nor `"0"`, and nothing otherwise; the
transform `ignore` returns the preset unchanged and logs nothing. -/
theorem todo_and_ignore_spec (rt : GoRuntime) (preset : AfterShotPreset)
    (name value : String) :
    ((AttributeMapper.todo).run rt preset name value).1 = preset ∧
    (((AttributeMapper.todo).run rt preset name value).2
        = [LogEntry.cannotMap name value] ↔ value ≠ "" ∧ value ≠ "0") ∧
    (((AttributeMapper.todo).run rt preset name value).2 = []
        ↔ value = "" ∨ value = "0") ∧
    ((AttributeMapper.ignore).run rt preset name value).1 = preset ∧
    ((AttributeMapper.ignore).run rt preset name value).2 = [] ∧
    (attributeMappers.lookup name = none →
      ∀ log : List LogEntry,
        (mapStep rt (preset, log) (name, value)).1 = preset ∧
        (mapStep rt (preset, log) (name, value)).2
          = log ++ ((AttributeMapper.todo).run rt preset name value).2) := by
  refine ⟨rfl, ?_, ?_, rfl, rfl, ?_⟩
  · simp only [AttributeMapper.run]
    split_ifs with h
    · simp [h]
    · simp [h]
  · simp only [AttributeMapper.run]
    split_ifs with h
    · simp only [List.cons_ne_nil, false_iff]
      intro h'
      rcases h' with h' | h'
      · exact h.1 h'
      · exact h.2 h'
    · simp only [true_iff]
      by_cases h1 : value = ""
      · exact Or.inl h1
      · by_cases h2 : value = "0"
        · exact Or.inr h2
        · exact absurd ⟨h1, h2⟩ h
  · intro hk log
    unfold mapStep
    by_cases hv : value = ""
    · subst hv
      simp [AttributeMapper.run]
    · simp [hv, hk, AttributeMapper.run]

/-- Instance of C23: the field `SomeFutureLightroomField = "5"` on the seeded preset. -/
theorem todo_and_ignore_spec_witness :
    ((AttributeMapper.todo).run exampleRuntime seededPreset "SomeFutureLightroomField" "5").1 = seededPreset ∧
    (((AttributeMapper.todo).run exampleRuntime seededPreset "SomeFutureLightroomField" "5").2
        = [LogEntry.cannotMap "SomeFutureLightroomField" "5"] ↔ "5" ≠ "" ∧ "5" ≠ "0") ∧
    (((AttributeMapper.todo).run exampleRuntime seededPreset "SomeFutureLightroomField" "5").2 = []
        ↔ "5" = "" ∨ "5" = "0") ∧
    ((AttributeMapper.ignore).run exampleRuntime seededPreset "SomeFutureLightroomField" "5").1 = seededPreset ∧
    ((AttributeMapper.ignore).run exampleRuntime seededPreset "SomeFutureLightroomField" "5").2 = [] ∧
    (attributeMappers.lookup "SomeFutureLightroomField" = none →
      ∀ log : List LogEntry,
        (mapStep exampleRuntime (seededPreset, log) ("SomeFutureLightroomField", "5")).1 = seededPreset ∧
        (mapStep exampleRuntime (seededPreset, log) ("SomeFutureLightroomField", "5")).2
          = log ++ ((AttributeMapper.todo).run exampleRuntime seededPreset "SomeFutureLightroomField" "5").2) :=
  todo_and_ignore_spec exampleRuntime seededPreset "SomeFutureLightroomField" "5"

/-! ## The names of the target attributes -/

theorem table_destination_mem_targetNames (e : String × AttributeMapper)
    (he : e ∈ attributeMappers) (d : String) (hd : e.2.destination? = some d) :
    d ∈ targetNames := by
  have hmem : d ∈ attributeMappers.filterMap fun e => e.2.destination? :=
    List.mem_filterMap.2 ⟨e, he, hd⟩
  unfold targetNames
  exact List.mem_append_left _ (List.mem_append_right _ hmem)

theorem setAttr_keys (a : AttributeMap) (key value : String)
    (ha : ∀ k, a k ≠ none → k ∈ targetNames) (hkey : key ∈ targetNames) :
    ∀ k, setAttr a key value k ≠ none → k ∈ targetNames := by
  intro k hk
  unfold setAttr at hk
  split at hk
  · rename_i h
    exact h ▸ hkey
  · exact ha k hk

theorem run_keys (rt : GoRuntime) (m : AttributeMapper) (preset : AfterShotPreset)
    (name value : String) (ha : ∀ k, preset.Attributes k ≠ none → k ∈ targetNames)
    (hm : ∀ d, m.destination? = some d → d ∈ targetNames) :
    ∀ k, (m.run rt preset name value).1.Attributes k ≠ none → k ∈ targetNames := by
  cases m with
  | copyValueDirectly dest => exact setAttr_keys _ _ _ ha (hm dest rfl)
  | absInt dest => exact setAttr_keys _ _ _ ha (hm dest rfl)
  | applyMultiplier dest mult => exact setAttr_keys _ _ _ ha (hm dest rfl)
  | todo => exact ha
  | ignore => exact ha

theorem mapStep_keys (rt : GoRuntime) (state : AfterShotPreset × List LogEntry)
    (entry : String × String) (ha : ∀ k, state.1.Attributes k ≠ none → k ∈ targetNames) :
    ∀ k, (mapStep rt state entry).1.Attributes k ≠ none → k ∈ targetNames := by
  unfold mapStep
  split
  · exact ha
  · apply run_keys rt _ _ _ _ ha
    intro d hd
    cases hl : attributeMappers.lookup entry.1 with
    | none => simp [hl, AttributeMapper.destination?] at hd
    | some m =>
      rw [hl, Option.getD_some] at hd
      exact table_destination_mem_targetNames (entry.1, m) (mem_of_lookup _ _ _ hl) d hd

theorem foldl_mapStep_keys (rt : GoRuntime) (entries : List (String × String))
    (state : AfterShotPreset × List LogEntry)
    (ha : ∀ k, state.1.Attributes k ≠ none → k ∈ targetNames) :
    ∀ k, (entries.foldl (mapStep rt) state).1.Attributes k ≠ none → k ∈ targetNames := by
  induction entries generalizing state with
  | nil => exact ha
  | cons e es ih => exact ih _ (mapStep_keys rt state e ha)

theorem passes_keys (lightroom : LightroomPreset) (state : AfterShotPreset × List LogEntry)
    (ha : ∀ k, state.1.Attributes k ≠ none → k ∈ targetNames) :
    ∀ k, (postMappingPasses.foldl (passStep lightroom) state).1.Attributes k ≠ none →
      k ∈ targetNames := by
  have hgray : ∀ k, (grayscalePass lightroom state.1).1.Attributes k ≠ none →
      k ∈ targetNames := by
    unfold grayscalePass
    split
    · exact setAttr_keys _ _ _ ha (by decide)
    · exact ha
  have htex : ∀ k, (texturePass lightroom (grayscalePass lightroom state.1).1).1.Attributes k
      ≠ none → k ∈ targetNames := by
    unfold texturePass
    split
    · exact setAttr_keys _ _ _ (setAttr_keys _ _ _ (setAttr_keys _ _ _
        (setAttr_keys _ _ _ hgray (by decide)) (by decide)) (by decide)) (by decide)
    · exact hgray
  have hdehaze : ∀ k, (dehazePass lightroom
      (texturePass lightroom (grayscalePass lightroom state.1).1).1).1.Attributes k
      ≠ none → k ∈ targetNames := by
    unfold dehazePass
    split
    · exact setAttr_keys _ _ _ (setAttr_keys _ _ _ htex (by decide)) (by decide)
    · exact htex
  exact hdehaze

/-- C24: every key of the result's `Attributes` is one of the 35 names of `targetNames`: the
two always-on fields, the 27 destination fields of the table and the six fields of the
texture and dehaze passes, all different; no name or value of a source field becomes a key,
and the result never holds more than 35 attributes. -/
theorem result_keys_in_targetNames (rt : GoRuntime) (lightroom : LightroomPreset) :
    (∀ k, (NewAftershotPresetFromLightroom rt lightroom).1.Attributes k ≠ none →
      k ∈ targetNames) ∧
    targetNames.length = 35 ∧ targetNames.Nodup ∧
    (attributeMappers.filterMap fun e => e.2.destination?).length = 27 ∧
    Set.ncard {k | (NewAftershotPresetFromLightroom rt lightroom).1.Attributes k ≠ none}
      ≤ 35 := by
  have hkeys : ∀ k, (NewAftershotPresetFromLightroom rt lightroom).1.Attributes k ≠ none →
      k ∈ targetNames := by
    unfold NewAftershotPresetFromLightroom
    apply passes_keys
    apply foldl_mapStep_keys
    intro k hk
    simp only [mapLiteral, List.foldl_cons, List.foldl_nil] at hk
    unfold setAttr at hk
    split at hk
    · rename_i h
      rw [h]
      decide
    · split at hk
      · rename_i h
        rw [h]
        decide
      · exact absurd rfl hk
  have hlen : targetNames.length = 35 := by decide
  refine ⟨hkeys, hlen, by decide, by decide, ?_⟩
  have hsub : {k | (NewAftershotPresetFromLightroom rt lightroom).1.Attributes k ≠ none}
      ⊆ ↑targetNames.toFinset := by
    intro k hk
    simpa using hkeys k hk
  calc Set.ncard {k | (NewAftershotPresetFromLightroom rt lightroom).1.Attributes k ≠ none}
      ≤ Set.ncard (↑targetNames.toFinset : Set String) :=
        Set.ncard_le_ncard hsub (Finset.finite_toSet _)
    _ = targetNames.toFinset.card := Set.ncard_coe_Finset _
    _ ≤ targetNames.length := List.toFinset_card_le _
    _ = 35 := hlen

end Lightroom2Aftershot
